import Mathlib

/-!
Verification development for the Virtual-Think-Thank simulation pipelines
(survey, focus-group and in-depth-interview simulations).

The Python sources are shallowly embedded: pure computations become Lean
functions over `Nat`, `Int`, `Rat`, `String` and `List`; Python floats are
idealised as rationals; Python exceptions become `Except`/explicit outcome
constructors; calls into the text-generation backend and into `json.loads`
are passed in as function parameters (oracles).  Each definition names the
source function it embeds.  Definitions come first, theorems afterwards.
-/

/-- Python `re` whitespace class for the patterns used by the sources
(space, tab, newline, carriage return, vertical tab, form feed). -/
def pyIsSpace (c : Char) : Bool :=
  c = ' ' || c = '\t' || c = '\n' || c = '\r' || c = '\x0b' || c = '\x0c'

/-- Python `str.strip()`: remove leading and trailing whitespace. -/
def pyStrip (s : String) : String :=
  ⟨((s.data.dropWhile pyIsSpace).reverse.dropWhile pyIsSpace).reverse⟩

/-- Count of maximal non-whitespace runs in a character list; the flag
records whether the previous character belonged to a word. -/
def countWordsAux : List Char → Bool → Nat
  | [], _ => 0
  | c :: rest, inWord =>
    if pyIsSpace c then countWordsAux rest false
    else (if inWord then 0 else 1) + countWordsAux rest true

/-- Python `len(content.split())`: `str.split()` with no arguments splits
on whitespace runs and drops empty pieces, so the length is the number of
maximal non-whitespace runs.  This is the word count used by
`analyze_transcript` in focus_group_simulation.py. -/
def pyWordCount (s : String) : Nat :=
  countWordsAux s.data false

/-- Python `f"{n:03d}"` for the small ids used by survey_simulation.py. -/
def pad3 (n : Nat) : String :=
  if n < 10 then "00" ++ toString n
  else if n < 100 then "0" ++ toString n
  else toString n

/-- Insertion-ordered association-list lookup, modelling Python `dict`
access for the string-keyed dicts of the sources. -/
def assocLookup {β : Type} : List (String × β) → String → Option β
  | [], _ => none
  | (k, v) :: rest, s => if k = s then some v else assocLookup rest s

namespace FocusGroup

/-- Embeds the pydantic model `SentimentScore` of
focus_group_simulation.py (fields `positive`, `neutral`, `negative`,
Python floats idealised as rationals). -/
structure SentimentScore where
  positive : ℚ
  neutral : ℚ
  negative : ℚ
deriving Repr, DecidableEq

/-- Python runtime errors relevant to the embedded fragments. -/
inductive PyError where
  | zeroDivision
deriving Repr, DecidableEq

/-- Python float division `a / b`: raises `ZeroDivisionError` when the
divisor is zero, otherwise exact division (floats idealised as `ℚ`). -/
def pyDiv (a b : ℚ) : Except PyError ℚ :=
  if b = 0 then .error .zeroDivision else .ok (a / b)

/-- Embeds `SentimentScore.validate_percentages`
(focus_group_simulation.py lines 138-147): if the total is not within
`[0.99, 1.01]` the three components are rescaled by `factor = 1.0 / total`;
the division is unguarded, so a zero total raises `ZeroDivisionError`. -/
def validatePercentages (s : SentimentScore) : Except PyError SentimentScore :=
  let total := s.positive + s.neutral + s.negative
  if (99/100 : ℚ) ≤ total ∧ total ≤ (101/100 : ℚ) then
    .ok s
  else
    match pyDiv 1 total with
    | .error e => .error e
    | .ok factor => .ok ⟨s.positive * factor, s.neutral * factor, s.negative * factor⟩

/-- Exception classes seen by the `@retry` decorator on
`generate_persona_profiles` (focus_group_simulation.py lines 335-339):
`json.JSONDecodeError`, pydantic `ValidationError`, and anything else. -/
inductive FGError where
  | jsonDecodeError
  | validationError
  | otherError (msg : String)
deriving Repr, DecidableEq

/-- Embeds `retry_if_exception_type((json.JSONDecodeError, ValidationError))`:
only parse and validation errors are classified retryable. -/
def retryIfExceptionType : FGError → Bool
  | .jsonDecodeError => true
  | .validationError => true
  | .otherError _ => false

/-- An exception escaping the decorated call: either the original exception
re-raised (when it is not retryable) or a tenacity `RetryError` wrapping the
last attempt's exception (when attempts are exhausted; the decorator uses
the default `reraise=False`). -/
inductive TenacityException (E : Type) where
  | exn (e : E)
  | retryError (last : E)
deriving Repr, DecidableEq

/-- The observable outcome of invoking the decorated function: a normal
return of a value, or an exception propagating to the caller. -/
inductive CallResult (E A : Type) where
  | returns (a : A)
  | throws (e : TenacityException E)
deriving Repr, DecidableEq

/-- The tenacity attempt loop: run the operation at the given attempt
number; on success return; on a retryable error, retry while fuel remains
and otherwise raise `RetryError` around the last error; on a non-retryable
error re-raise it at once.  The second component is the number of attempts
actually made. -/
def tenacityLoop {E A : Type} (retryable : E → Bool) (op : Nat → Except E A) :
    Nat → Nat → CallResult E A × Nat
  | attempt, fuel =>
    match op attempt with
    | .ok a => (.returns a, attempt)
    | .error e =>
      if retryable e then
        match fuel with
        | 0 => (.throws (.retryError e), attempt)
        | fuel' + 1 => tenacityLoop retryable op (attempt + 1) fuel'
      else (.throws (.exn e), attempt)

/-- Embeds the `@retry(stop=stop_after_attempt(maxAttempts), ...)` wrapper:
first attempt is number 1 and at most `maxAttempts` attempts are made. -/
def withRetry {E A : Type} (retryable : E → Bool) (maxAttempts : Nat)
    (op : Nat → Except E A) : CallResult E A × Nat :=
  tenacityLoop retryable op 1 (maxAttempts - 1)

/-- Embeds tenacity `wait_exponential(multiplier, min, max)`: the delay
before retrying after failed attempt number `n` is
`max(max(0, min), min(multiplier * 2^n, max))`. -/
def waitExponential (multiplier minB maxB : ℚ) (attemptNumber : Nat) : ℚ :=
  max (max 0 minB) (min (multiplier * 2 ^ attemptNumber) maxB)

/-- Embeds the pydantic model `DialogueEntry` (speaker id, display name,
content; the timestamp field plays no role in any claim). -/
structure DialogueEntry where
  speaker_id : String
  speaker_name : String
  content : String
deriving Repr, DecidableEq

/-- Python `d[k] += n` with a preceding `d.setdefault(k, 0)`: add to the
entry for `k`, appending it if absent (Python dicts keep insertion order). -/
def assocAdd : List (String × Nat) → String → Nat → List (String × Nat)
  | [], k, n => [(k, n)]
  | (k', v) :: rest, k, n =>
    if k' = k then (k', v + n) :: rest else (k', v) :: assocAdd rest k n

/-- Python `set.add` on a set modelled as a duplicate-free list. -/
def setInsert (l : List String) (x : String) : List String :=
  if x ∈ l then l else l ++ [x]

/-- Add `x` to the interaction set stored under key `k` (no-op when the key
is absent; the source only calls this with the key present). -/
def imAdd : List (String × List String) → String → String → List (String × List String)
  | [], _, _ => []
  | (k', vs) :: rest, k, x =>
    if k' = k then (k', setInsert vs x) :: rest else (k', vs) :: imAdd rest k x

/-- `transcript[-10:]`: the last (up to) ten entries of the list. -/
def lastTen (l : List DialogueEntry) : List DialogueEntry :=
  l.drop (l.length - 10)

/-- The mutable dictionaries built by the metrics pre-pass of
`analyze_transcript` (focus_group_simulation.py lines 666-694). -/
structure MetricsState where
  word_counts : List (String × Nat)
  response_counts : List (String × Nat)
  interaction_map : List (String × List String)
deriving Repr, DecidableEq

/-- One iteration of the metrics pre-pass loop of `analyze_transcript`:
initialise the three dicts for an unseen speaker, add the entry's
whitespace-split word count and a response count of one, and update the
interaction heuristic (scan the last ten entries of the whole transcript,
in reverse, for the most recent different speaker). -/
def metricsStep (fullTranscript : List DialogueEntry) (st : MetricsState)
    (e : DialogueEntry) : MetricsState :=
  let st :=
    if (assocLookup st.word_counts e.speaker_id).isSome then st
    else ⟨st.word_counts ++ [(e.speaker_id, 0)],
          st.response_counts ++ [(e.speaker_id, 0)],
          st.interaction_map ++ [(e.speaker_id, [])]⟩
  let wc := assocAdd st.word_counts e.speaker_id (pyWordCount e.content)
  let rc := assocAdd st.response_counts e.speaker_id 1
  let im :=
    if e.speaker_id = "Moderator" then st.interaction_map
    else
      match (lastTen fullTranscript).reverse.find? (fun p => p.speaker_id != e.speaker_id) with
      | none => st.interaction_map
      | some prev =>
        let im1 := imAdd st.interaction_map e.speaker_id prev.speaker_id
        if (assocLookup im1 prev.speaker_id).isSome
        then imAdd im1 prev.speaker_id e.speaker_id
        else im1
  ⟨wc, rc, im⟩

/-- The metrics pre-pass of `analyze_transcript`: fold the step over the
transcript starting from empty dicts. -/
def computeMetricsState (transcript : List DialogueEntry) : MetricsState :=
  transcript.foldl (metricsStep transcript) ⟨[], [], []⟩

/-- Embeds the pydantic model `ParticipantMetrics` (`word_count`,
`response_count`, `interaction_score`; the score, a Python float that the
source always assigns an `int` value, is modelled as `ℤ`). -/
structure ParticipantMetrics where
  word_count : Nat
  response_count : Nat
  interaction_score : ℤ
deriving Repr, DecidableEq

/-- `min(10, int((word_count / 100) + (len(interaction_map.get(...)) * 1.5)))`
from focus_group_simulation.py line 744 (`int` truncation on a nonnegative
value is the floor). -/
def interactionScore (wc : Nat) (numInteractions : Nat) : ℤ :=
  min 10 (Int.floor ((wc : ℚ) / 100 + (numInteractions : ℚ) * (3/2)))

/-- The engagement metrics `analyze_transcript` computes from its own
pre-pass (lines 739-756): one record per non-Moderator speaker, keyed in
`word_counts` order. -/
def computedEngagementMetrics (transcript : List DialogueEntry) :
    List (String × ParticipantMetrics) :=
  (computeMetricsState transcript).word_counts.filterMap fun p =>
    if p.1 = "Moderator" then none
    else some (p.1,
      ⟨p.2, (assocLookup (computeMetricsState transcript).response_counts p.1).getD 0,
        interactionScore p.2
          ((assocLookup (computeMetricsState transcript).interaction_map p.1).getD []).length⟩)

/-- Embeds the engagement-metrics reconciliation of `analyze_transcript`
(line 739): the recomputed metrics are used only `if not
analysis_data.engagement_metrics` — a non-empty model-reported dict is kept
verbatim. -/
def finalEngagementMetrics (transcript : List DialogueEntry)
    (modelMetrics : List (String × ParticipantMetrics)) :
    List (String × ParticipantMetrics) :=
  if modelMetrics.isEmpty then computedEngagementMetrics transcript else modelMetrics

/-- The per-speaker keys of `word_counts` and `response_counts` stay in
sync across the metrics pre-pass. -/
def KeysSync (st : MetricsState) : Prop :=
  ∀ s, assocLookup st.word_counts s = none ↔ assocLookup st.response_counts s = none

/-- Specification-side recomputation (claim C4's words): the total
whitespace-separated word count a speaker produces across the transcript. -/
def totalWords (transcript : List DialogueEntry) (speaker : String) : Nat :=
  ((transcript.filter (fun e => e.speaker_id == speaker)).map
    (fun e => pyWordCount e.content)).sum

/-- Specification-side recomputation (claim C4's words): the number of
turns a speaker produces across the transcript. -/
def totalResponses (transcript : List DialogueEntry) (speaker : String) : Nat :=
  (transcript.filter (fun e => e.speaker_id == speaker)).length

end FocusGroup

/-- JSON values as produced by Python `json.loads` / consumed by
`json.dump` (numbers idealised as rationals, `None` as `null`). -/
inductive Json where
  | null
  | bool (b : Bool)
  | num (q : ℚ)
  | str (s : String)
  | arr (items : List Json)
  | obj (fields : List (String × Json))

/-- Python `dict` key access `d.get(k)` on a JSON object (objects coming
from `json.loads` have unique keys); `none` on non-objects. -/
def jsonLookup (j : Json) (k : String) : Option Json :=
  match j with
  | .obj fields => assocLookup fields k
  | _ => none

mutual

/-- Whether the string occurs as a key anywhere in the JSON value
(at the top level or nested inside any sub-object or array). -/
def hasKeyDeep : Json → String → Bool
  | .obj fields, k => hasKeyDeepFields fields k
  | .arr items, k => hasKeyDeepItems items k
  | _, _ => false

def hasKeyDeepItems : List Json → String → Bool
  | [], _ => false
  | j :: rest, k => hasKeyDeep j k || hasKeyDeepItems rest k

def hasKeyDeepFields : List (String × Json) → String → Bool
  | [], _ => false
  | (k1, v) :: rest, k => k1 == k || hasKeyDeep v k || hasKeyDeepFields rest k

end

namespace Survey

/-- The id `f"R{i:03d}_fallback"` given to the i-th generic fallback
respondent (survey_simulation.py line 551). -/
def fallbackRespondentId (i : Nat) : String :=
  "R" ++ pad3 i ++ "_fallback"

/-- Embeds one generic fallback respondent profile from the except-branch
of `generate_respondents` (survey_simulation.py lines 548-556).  The age
is `random.randint(18, 75)`, an unseeded global random draw, passed here
as the parameter `randomAge`. -/
def genericRespondent (i randomAge : Nat) : Json :=
  .obj [
    ("respondent_id", .str (fallbackRespondentId i)),
    ("demographics", .obj [
      ("age", .num randomAge), ("gender", .str "Unknown"),
      ("location_city", .str "N/A"), ("location_state", .str "N/A"),
      ("location_country", .str "N/A"), ("education_level", .str "N/A"),
      ("education_field", .str "N/A"), ("occupation_title", .str "N/A"),
      ("occupation_industry", .str "N/A"), ("income_annual_usd", .num 50000),
      ("marital_status", .str "N/A"), ("household_composition", .str "N/A"),
      ("homeownership", .str "N/A")]),
    ("psychographics", .obj [
      ("personality_traits", .arr [.str "Neutral"]), ("values", .arr []),
      ("interests_hobbies", .arr []), ("lifestyle_notes", .str "N/A"),
      ("media_consumption_primary", .arr []), ("technology_adoption", .str "Mainstream")]),
    ("behaviors", .obj [
      ("shopping_preferences", .arr []), ("decision_making_style", .str "Moderate"),
      ("brand_affinities_relevant", .arr [])]),
    ("response_style", .obj [
      ("approach", .str "Neutral/Middle-ground"), ("potential_bias", .str "None"),
      ("consistency", .str "Generally Consistent")])]

/-- Embeds the fallback loop `for i in range(1, num_respondents + 1)` of
`generate_respondents`: the list of generic profiles, with `ages i` the
random age drawn on iteration `i`. -/
def genericRespondents (ages : Nat → Nat) : Nat → List Json
  | 0 => []
  | n + 1 => genericRespondents ages n ++ [genericRespondent (n + 1) (ages (n + 1))]

/-- The `demographics.age` field of a profile, the only part of a generic
fallback respondent that depends on the random draw. -/
def demographicsAge (j : Json) : Option Json :=
  (jsonLookup j "demographics").bind (fun d => jsonLookup d "age")

/-- Replace the `demographics.age` value with `null`, leaving every other
field untouched (used to state what is and is not deterministic about the
fallback profiles). -/
def scrubAge (j : Json) : Json :=
  match j with
  | .obj fields => .obj (fields.map (fun kv =>
      if kv.1 = "demographics" then
        (kv.1, match kv.2 with
               | .obj dfields => Json.obj (dfields.map (fun dkv =>
                   if dkv.1 = "age" then (dkv.1, Json.null) else dkv))
               | other => other)
      else kv))
  | other => other

end Survey

namespace IDI

/-- Embeds the `generic_persona` dict from the except-branch of
`generate_respondent_persona` (idi_simulation.py lines 359-368); every
field is a fixed placeholder value. -/
def genericPersona : Json :=
  .obj [
    ("name", .str "Generic Person"), ("age", .num 35), ("gender", .str "Unknown"),
    ("occupation", .str "Professional"), ("education", .str "N/A"),
    ("location", .str "N/A"), ("income_bracket", .str "N/A"),
    ("demographics", .obj [
      ("ethnicity", .str "N/A"), ("marital_status", .str "N/A"),
      ("household_composition", .str "N/A"), ("other_relevant_demographics", .null)]),
    ("psychographics", .obj [
      ("values", .arr []), ("interests", .arr []),
      ("lifestyle_details", .str "N/A"), ("personality_traits", .arr [.str "Neutral"])]),
    ("behaviors", .obj [
      ("consumption_patterns", .str "N/A"), ("usage_habits", .str "N/A"),
      ("other_relevant_behaviors", .null)]),
    ("attitudes", .obj [
      ("opinions", .str "Neutral opinion"), ("beliefs", .str "Neutral beliefs"),
      ("sentiments_towards_topic", .str "Neutral")]),
    ("media_consumption", .arr []), ("motivations", .str "N/A"),
    ("challenges", .str "N/A"), ("topic_experience", .str "Some familiarity"),
    ("brand_affinities", .arr []), ("communication_style", .str "Moderate")]

end IDI

namespace Survey

/-- One survey question as consulted by `collect_survey_responses`
(survey_simulation.py lines 702, 714-717): its id and required flag. -/
structure Question where
  question_id : String
  required : Bool
deriving Repr, DecidableEq

/-- One survey section: the list of its questions. -/
structure SurveySection where
  questions : List Question
deriving Repr, DecidableEq

/-- The survey design consulted by `collect_survey_responses`: its
sections (title/introduction fields play no role in any claim). -/
structure SurveyQuestions where
  sections : List SurveySection
deriving Repr, DecidableEq

/-- One respondent profile dict as used by `collect_survey_responses`:
its `respondent_id` key (absent modelled as `none`) and the remaining
profile payload, opaque to the collection loop. -/
structure Respondent where
  respondent_id : Option String
  rest : Json

/-- `f"R{i+1:03d}"`, the task-name default when a profile lacks a
`respondent_id` (survey_simulation.py line 624, 0-based index). -/
def defaultTaskId (i : Nat) : String :=
  "R" ++ pad3 (i + 1)

/-- The `asyncio` task name for respondent `i`:
`respondent.get("respondent_id", f"R{i+1:03d}")`. -/
def taskName (i : Nat) (r : Respondent) : String :=
  r.respondent_id.getD (defaultTaskId i)

/-- Search, from the current position, for the earliest closing brace
followed (after optional whitespace) by a closing triple-backtick fence:
the lazy `.*?\x7d` part of the fenced-object pattern.  Returns the
consumed characters up to and including that brace. -/
def findCloseBrace : List Char → Option (List Char)
  | [] => none
  | c :: rest =>
    if c = '\x7d' && ("```".data.isPrefixOf (rest.dropWhile pyIsSpace))
    then some ['\x7d']
    else
      match findCloseBrace rest with
      | some tail => some (c :: tail)
      | none => none

/-- Try to match the fenced-object pattern at the current position: the
literal backtick-fence marker followed by `json`, optional whitespace, an
opening brace, a lazily-matched body ending at a closing brace, optional
whitespace and a closing fence.  Returns the brace-delimited group.  (The
whitespace runs are consumed greedily; since a brace or backtick is never
whitespace this is exactly the regex's backtracking behaviour.) -/
def matchFencedAt (l : List Char) : Option (List Char) :=
  if "```json".data.isPrefixOf l then
    match (l.drop 7).dropWhile pyIsSpace with
    | c :: body =>
      if c = '\x7b' then
        match findCloseBrace body with
        | some grp => some ('\x7b' :: grp)
        | none => none
      else none
    | [] => none
  else none

/-- `re.search` for the fenced-object pattern
(survey_simulation.py line 683): try every start position left to right.
The pattern's group only ever matches a brace-delimited object — a fenced
JSON array can never match. -/
def searchFenced : List Char → Option (List Char)
  | [] => none
  | c :: rest =>
    match matchFencedAt (c :: rest) with
    | some grp => some grp
    | none => searchFenced rest

/-- No position in the character list starts the fenced-`json` marker. -/
def noJsonFenceAnywhere : List Char → Bool
  | [] => true
  | c :: rest => !("```json".data.isPrefixOf (c :: rest)) && noJsonFenceAnywhere rest

/-- The `ValueError` raised by the extraction branch of
`collect_survey_responses` (line 691). -/
inductive ExtractError where
  | notArrayNoBlock
deriving Repr, DecidableEq

/-- `str(e)` for the extraction failure. -/
def extractErrorMessage : ExtractError → String
  | .notArrayNoBlock => "Response is not a JSON array and no JSON code block found."

/-- Python `text.startswith(c)` for a single character. -/
def strStartsWithChar (s : String) (c : Char) : Bool :=
  match s.data with
  | [] => false
  | d :: _ => d == c

/-- Python `text.endswith(c)` for a single character. -/
def strEndsWithChar (s : String) (c : Char) : Bool :=
  match s.data.getLast? with
  | some d => d == c
  | none => false

/-- Embeds the extraction logic of `collect_survey_responses`
(lines 682-691): prefer a fenced braced object (group stripped); otherwise
accept the raw text only when it starts with `[` and ends with `]`;
otherwise raise the `ValueError`. -/
def extractResponseJson (text : String) : Except ExtractError String :=
  match searchFenced text.data with
  | some grp => .ok (pyStrip ⟨grp⟩)
  | none =>
    if strStartsWithChar text '[' && strEndsWithChar text ']' then .ok text
    else .error .notArrayNoBlock

/-- The placeholder answer recorded when a respondent's task raised
(line 677). -/
def agentErrorRecord (msg : String) : Json :=
  .obj [("question_id", .str "AGENT_ERROR"), ("response", .str ("Agent failed: " ++ msg))]

/-- The placeholder answer recorded when extraction or JSON decoding
failed (line 725). -/
def jsonErrorRecord (msg : String) : Json :=
  .obj [("question_id", .str "JSON_ERROR"), ("response", .str ("Invalid JSON: " ++ msg))]

/-- The placeholder answer recorded when the parsed JSON is not a list
(line 698). -/
def notListRecord (v : Json) : Json :=
  .obj [("question_id", .str "FORMAT_WARNING_NOT_LIST"), ("response", v)]

/-- The note appended when required questions are missing (line 721). -/
def missingRequiredRecord (missing : List String) : Json :=
  .obj [("question_id", .str "MISSING_REQUIRED"), ("response", .arr (missing.map .str))]

/-- `isinstance(answer, dict) and "question_id" in answer and "response"
in answer` (line 705). -/
def isValidAnswer (a : Json) : Bool :=
  match a with
  | .obj fields => (assocLookup fields "question_id").isSome && (assocLookup fields "response").isSome
  | _ => false

/-- `answer["question_id"]` for the provided-ids set. -/
def answerQid (a : Json) : Option Json :=
  jsonLookup a "question_id"

/-- Python `==` between a parsed JSON value and a question-id string. -/
def jsonEqStr : Json → String → Bool
  | .str s, t => s == t
  | _, _ => false

/-- Python hashability of a value decoded by `json.loads`: strings,
numbers, booleans and `None` are hashable; lists and dicts are not. -/
def isHashable : Json → Bool
  | .arr _ => false
  | .obj _ => false
  | _ => true

/-- Whether an answer's `question_id` value (if any) is hashable. -/
def hashableQid (a : Json) : Bool :=
  match answerQid a with
  | some q => isHashable q
  | none => true

/-- The `TypeError` raised by `provided_q_ids.add(answer["question_id"])`
(survey_simulation.py line 707) when the id value is an unhashable list or
dict; it is not in the except-tuple at line 723, so it escapes
`collect_survey_responses` and aborts the whole batch. -/
inductive SurveyAbort where
  | typeErrorUnhashable
deriving Repr, DecidableEq

/-- The answer-validation loop (lines 704-710): walk the decoded answers
in order; a valid-shaped answer is kept and its id added to the
provided-ids set — raising `TypeError` if the id is unhashable — while a
malformed answer is skipped with a warning.  Returns the kept answers and
the collected ids. -/
def collectValidAnswers : List Json → Except SurveyAbort (List Json × List Json)
  | [] => .ok ([], [])
  | a :: rest =>
    if isValidAnswer a then
      match answerQid a with
      | some qid =>
        if isHashable qid then
          match collectValidAnswers rest with
          | .ok (vs, ids) => .ok (a :: vs, qid :: ids)
          | .error e => .error e
        else .error .typeErrorUnhashable
      | none => collectValidAnswers rest
    else
      collectValidAnswers rest

/-- The required questions the respondent failed to answer (lines
713-717): survey questions marked required whose id is not among the
provided answers' `question_id` values. -/
def missingRequired (survey : SurveyQuestions) (provided : List Json) : List String :=
  (((survey.sections.map (fun s => s.questions)).flatten.filter
    (fun q => q.required && !(provided.any (fun v => jsonEqStr v q.question_id)))).map
    (fun q => q.question_id))

/-- Processing of one successful generation result in the collection loop
(lines 679-725): strip, extract a JSON string, decode it via the
`json.loads` oracle, keep only well-formed answers, and flag format and
missing-required problems with placeholder records.  A valid-shaped
answer whose `question_id` is an unhashable list/dict makes the
provided-ids set insertion raise an uncaught `TypeError` (the `.error`
branch), aborting the batch. -/
def processSuccess (survey : SurveyQuestions) (loads : String → Except String Json)
    (raw : String) : Except SurveyAbort (List Json) :=
  match extractResponseJson (pyStrip raw) with
  | .error e => .ok [jsonErrorRecord (extractErrorMessage e)]
  | .ok jsonStr =>
    match loads jsonStr with
    | .error msg => .ok [jsonErrorRecord msg]
    | .ok (Json.arr items) =>
      match collectValidAnswers items with
      | .error e => .error e
      | .ok (validAnswers, provided) =>
        if (missingRequired survey provided).isEmpty then .ok validAnswers
        else .ok (validAnswers ++ [missingRequiredRecord (missingRequired survey provided)])
    | .ok other => .ok [notListRecord other]

/-- One per-respondent record of the returned result list: the profile the
loop attributed to the task plus the processed `responses` list. -/
structure ResponseSet where
  profile : Respondent
  responses : List Json

/-- The loop's by-identity attribution (lines 664-669): find the first
profile whose `respondent_id` equals the task name; fall back to the
profile at the task's index. -/
def originalRespondent (respondents : List Respondent) (r : Respondent) (id : String) :
    Respondent :=
  match respondents.find? (fun x => x.respondent_id == some id) with
  | some found => found
  | none => r

/-- The body of the result loop for item `i` (lines 659-727): attribute
the task to a profile by id, then turn the outcome — an exception or the
generated text — into the per-respondent `responses` list.  A `TypeError`
from the answer loop propagates (`.error`). -/
def processResult (survey : SurveyQuestions) (loads : String → Except String Json)
    (respondents : List Respondent) (i : Nat) (r : Respondent)
    (outcome : Except String String) : Except SurveyAbort ResponseSet :=
  match outcome with
  | .error msg =>
    .ok ⟨originalRespondent respondents r (taskName i r), [agentErrorRecord msg]⟩
  | .ok raw =>
    match processSuccess survey loads raw with
    | .error e => .error e
    | .ok answers => .ok ⟨originalRespondent respondents r (taskName i r), answers⟩

/-- The result loop of `collect_survey_responses`: tasks are created one
per respondent in order (an agent-initialisation failure still contributes
an error task, line 646), `asyncio.gather` returns results in task order,
and the loop walks results positionally; an uncaught `TypeError` from any
item aborts the loop and the whole function. -/
def collectLoop (survey : SurveyQuestions) (loads : String → Except String Json)
    (respondents : List Respondent) :
    Nat → List Respondent → List (Except String String) →
      Except SurveyAbort (List ResponseSet)
  | _, [], _ => .ok []
  | _, _ :: _, [] => .ok []
  | i, r :: rs, o :: os =>
    match processResult survey loads respondents i r o with
    | .error e => .error e
    | .ok x =>
      match collectLoop survey loads respondents (i + 1) rs os with
      | .error e => .error e
      | .ok xs => .ok (x :: xs)

/-- Embeds `collect_survey_responses` (survey_simulation.py lines
622-737), with the per-respondent generation outcomes passed in
positionally as the `outcomes` oracle list; `.error` models the uncaught
`TypeError` raising out of the function to its caller. -/
def collectSurveyResponses (survey : SurveyQuestions) (loads : String → Except String Json)
    (respondents : List Respondent) (outcomes : List (Except String String)) :
    Except SurveyAbort (List ResponseSet) :=
  collectLoop survey loads respondents 0 respondents outcomes

/-- The placeholder `question_id` values that flag a degraded or
problematic per-respondent record. -/
def errorMarkerIds : List String :=
  ["AGENT_ERROR", "JSON_ERROR", "FORMAT_WARNING_NOT_LIST", "MISSING_REQUIRED"]

/-- Whether an answer record is one of the error/degraded placeholders. -/
def isErrorMarker (a : Json) : Bool :=
  match jsonLookup a "question_id" with
  | some (.str s) => errorMarkerIds.contains s
  | _ => false

/-- A per-respondent record is flagged when any of its answers is an
error/degraded placeholder. -/
def ResponseSet.flagged (rs : ResponseSet) : Bool :=
  rs.responses.any isErrorMarker

/-- Whether a generation outcome was a failure (the task returned an
exception). -/
def outcomeFailed : Except String String → Bool
  | .error _ => true
  | .ok _ => false

/-- A successful generation output is well-formed for a survey when its
stripped text extracts to a JSON string that decodes to a list of valid,
non-placeholder answer dicts with hashable `question_id` values covering
every required question. -/
def wellFormedResponse (survey : SurveyQuestions) (loads : String → Except String Json)
    (raw : String) : Bool :=
  match extractResponseJson (pyStrip raw) with
  | .error _ => false
  | .ok jsonStr =>
    match loads jsonStr with
    | .ok (Json.arr items) =>
      items.all (fun a => isValidAnswer a && !isErrorMarker a && hashableQid a) &&
      (missingRequired survey (items.filterMap answerQid)).isEmpty
    | _ => false

/-- Placeholder profile for stating positional properties. -/
def dummyRespondent : Respondent :=
  ⟨none, Json.null⟩

/-- Placeholder record for stating positional properties. -/
def dummyResponseSet : ResponseSet :=
  ⟨dummyRespondent, []⟩

/-- Concrete one-question survey used for concrete instantiations. -/
def sampleSurvey : SurveyQuestions :=
  ⟨[⟨[⟨"Q1", true⟩]⟩]⟩

/-- Concrete `json.loads` oracle: always one valid answer list. -/
def sampleLoads : String → Except String Json :=
  fun _ => Except.ok (Json.arr [Json.obj [("question_id", Json.str "Q1"), ("response", Json.str "A")]])

/-- Concrete respondent profiles (the third lacks a `respondent_id`). -/
def sampleRespondents : List Respondent :=
  [⟨some "R001", Json.null⟩, ⟨some "R002", Json.null⟩, ⟨none, Json.null⟩]

/-- Concrete fan-out outcomes: the second task failed permanently. -/
def sampleOutcomes : List (Except String String) :=
  [Except.ok "[x]", Except.error "boom", Except.ok "[x]"]

/-- Concrete `json.loads` oracle whose decoded reply contains a second
answer with a list-valued — unhashable — `question_id`. -/
def sampleBadLoads : String → Except String Json :=
  fun _ => Except.ok (Json.arr
    [Json.obj [("question_id", Json.str "Q1"), ("response", Json.str "x")],
     Json.obj [("question_id", Json.arr []), ("response", Json.str "y")]])

end Survey

namespace FocusGroup

/-- One participant agent as used by `run_simulation`: persona id, real
name, age and occupation (used in intros, prompts and fallbacks), plus the
persona-reminder paragraph interpolated into every participant prompt
(its wording is prompt templating, out of the specification's scope). -/
structure Participant where
  persona_id : String
  name : String
  age : Nat
  occupation : String
  reminder : String

/-- The `"Current context:\n{current_context}\n\n"` header every prompt in
`run_simulation` starts with. -/
def promptHeader (context : String) : String :=
  "Current context:\n" ++ context ++ "\n\n"

/-- The round-dependent instruction part of the moderator prompt
(focus_group_simulation.py lines 508-528): a base instruction, replaced by
an opening variant in round 1 and by a closing variant in the final round.
Wording is abridged (prompt text is out of scope). -/
def moderatorInstr (roundNum numRounds : Nat) (topic names : String) : String :=
  if roundNum = numRounds then
    "This is the final round of the discussion. Ask a closing question to get final thoughts on the topic."
  else if roundNum = 1 then
    "Start the focus group. Introduce the topic " ++ topic ++
      " and ask your opening question to the participants (" ++ names ++ ")."
  else
    "Based on the discussion so far, what is your next question or statement for round " ++
      toString roundNum ++ " of " ++ toString numRounds ++ "?"

/-- The moderator prompt for a round: the context header followed by the
round instruction; every variant embeds the full current context. -/
def mkModeratorPrompt (context : String) (roundNum numRounds : Nat)
    (topic names : String) : String :=
  promptHeader context ++ moderatorInstr roundNum numRounds topic names

/-- The instruction part of a participant prompt (lines 576-583): the
persona reminder followed by the respond instruction. -/
def participantInstr (reminder : String) : String :=
  reminder ++
    "\n\nRespond to the moderator and the ongoing discussion from the perspective of your persona."

/-- The per-participant prompt: context header plus the persona-specific
instruction. -/
def mkParticipantPrompt (context : String) (reminder : String) : String :=
  promptHeader context ++ participantInstr reminder

/-- The concluding moderator prompt (lines 622-627). -/
def mkConclusionPrompt (context : String) : String :=
  promptHeader context ++
    "Conclude the focus group session. Thank the participants and summarize the key points discussed."

/-- The moderator fallback line used when the backend call raises
(line 546; apostrophes elided). -/
def moderatorFallback (topic : String) : String :=
  "Let us move forward with our discussion on " ++ topic ++ ". What are your thoughts on this?"

/-- The participant fallback line (line 601; apostrophes elided). -/
def participantFallback (occupation : String) : String :=
  "I am interested in this topic from my perspective as " ++ occupation ++ "."

/-- The running state of `run_simulation`: the append-only transcript, the
growing context string, and an instrumentation log pairing each turn's
prompt with the dialogue entry it produced, in generation order. -/
structure SimState where
  transcript : List DialogueEntry
  context : String
  log : List (String × DialogueEntry)

/-- Append one completed turn: the transcript and log grow at the end and
the context is extended with `"\n{label}: {content}"`. -/
def pushTurn (st : SimState) (label : String) (e : DialogueEntry) (prompt : String) :
    SimState :=
  ⟨st.transcript ++ [e],
   st.context ++ "\n" ++ label ++ ": " ++ e.content,
   st.log ++ [(prompt, e)]⟩

/-- A moderator round turn (lines 530-556): build the round prompt from
the current context, call the backend (the `gen` oracle, indexed by the
turn counter), fall back to the canned line on error, and append. -/
def moderatorTurn (gen : Nat → String → Except String String)
    (topic names : String) (roundNum numRounds : Nat) (st : SimState) : SimState :=
  let prompt := mkModeratorPrompt st.context roundNum numRounds topic names
  let content :=
    match gen st.log.length prompt with
    | .ok t => t
    | .error _ => moderatorFallback topic
  pushTurn st "Moderator" ⟨"Moderator", "Moderator", content⟩ prompt

/-- One participant turn (lines 559-611): prompt embeds the current
context and the persona reminder; on error the canned fallback is used;
the context label is `"{persona_id} ({name})"`. -/
def participantTurn (gen : Nat → String → Except String String)
    (p : Participant) (st : SimState) : SimState :=
  let prompt := mkParticipantPrompt st.context p.reminder
  let content :=
    match gen st.log.length prompt with
    | .ok t => t
    | .error _ => participantFallback p.occupation
  pushTurn st (p.persona_id ++ " (" ++ p.name ++ ")") ⟨p.persona_id, p.name, content⟩ prompt

/-- The concluding moderator turn (lines 615-650). -/
def conclusionTurn (gen : Nat → String → Except String String)
    (topic : String) (st : SimState) : SimState :=
  let prompt := mkConclusionPrompt st.context
  let content :=
    match gen st.log.length prompt with
    | .ok t => t
    | .error _ =>
      "Thank you all for your participation and valuable insights. This concludes our focus group session."
  pushTurn st "Moderator" ⟨"Moderator", "Moderator", content⟩ prompt

/-- One full round: the moderator speaks, then every participant in list
order. -/
def runRound (gen : Nat → String → Except String String)
    (topic names : String) (numRounds : Nat) (participants : List Participant)
    (roundNum : Nat) (st : SimState) : SimState :=
  participants.foldl (fun s p => participantTurn gen p s)
    (moderatorTurn gen topic names roundNum numRounds st)

/-- The round loop `for round_num in range(1, num_rounds + 1)`; `k` counts
the rounds still to run, so the round being played is `numRounds - k + 1`
positions in: with `k + 1` rounds left the current round number is
`numRounds - k`. -/
def runRounds (gen : Nat → String → Except String String)
    (topic names : String) (numRounds : Nat) (participants : List Participant) :
    Nat → SimState → SimState
  | 0, st => st
  | k + 1, st =>
    runRounds gen topic names numRounds participants k
      (runRound gen topic names numRounds participants (numRounds - k) st)

/-- `', '.join(p.persona_profile.name for p in participants)`. -/
def joinNames (participants : List Participant) : String :=
  String.intercalate ", " (participants.map (fun p => p.name))

/-- The initial context (lines 492-498): the topic line plus one intro
line per participant. -/
def initContext (topic : String) (participants : List Participant) : String :=
  participants.foldl
    (fun c p => c ++ "\n" ++ p.persona_id ++ " is " ++ p.name ++ ", " ++
      toString p.age ++ ", " ++ p.occupation ++ ".")
    ("The discussion topic is: " ++ topic)

/-- Placeholder log entry for stating positional properties. -/
def dummyLogEntry : String × DialogueEntry :=
  ("", ⟨"", "", ""⟩)

/-- Embeds `run_simulation` (focus_group_simulation.py lines 486-654):
the initial context with participant intros, `num_rounds` rounds of one
moderator turn plus one turn per participant, then the moderator
conclusion.  The backend is the `gen` oracle, indexed by turn number. -/
def runSimulation (gen : Nat → String → Except String String)
    (topic : String) (participants : List Participant) (numRounds : Nat) : SimState :=
  conclusionTurn gen topic
    (runRounds gen topic (joinNames participants) numRounds participants numRounds
      ⟨[], initContext topic participants, []⟩)

/-- A concrete always-succeeding backend oracle. -/
def sampleGen : Nat → String → Except String String :=
  fun n _ => Except.ok ("reply number " ++ toString n)

/-- A concrete participant. -/
def sampleParticipant : Participant :=
  ⟨"Participant_1", "Alice", 30, "Engineer", "You are Alice, 30, an Engineer."⟩

end FocusGroup

namespace IDI

/-- The running state of `run_interview` (idi_simulation.py lines
379-478): the transcript of `(speaker, dialogue)` tuples, the growing
context string, and an instrumentation log pairing each turn's prompt
with the tuple it produced, in generation order. -/
structure InterviewState where
  transcript : List (String × String)
  context : String
  log : List (String × (String × String))

/-- Append one completed interview turn: the transcript and log grow at
the end and the context is extended with `"\n{speaker}: {dialogue}"`. -/
def idiPush (st : InterviewState) (speaker dialogue prompt : String) : InterviewState :=
  ⟨st.transcript ++ [(speaker, dialogue)],
   st.context ++ "\n" ++ speaker ++ ": " ++ dialogue,
   st.log ++ [(prompt, (speaker, dialogue))]⟩

/-- Append the very last turn (lines 466-475): the transcript and log grow
but the context is not extended — the source omits the final
`current_context +=`. -/
def idiFinalPush (st : InterviewState) (speaker dialogue prompt : String) : InterviewState :=
  ⟨st.transcript ++ [(speaker, dialogue)],
   st.context,
   st.log ++ [(prompt, (speaker, dialogue))]⟩

/-- One interview turn: the prompt is the context header plus a
turn-specific instruction tail (wording abridged; prompt text is out of
scope), the backend reply is appended.  `run_interview` has no try/except,
so the backend oracle is total here (a raising call aborts the whole
function and returns no transcript at all). -/
def idiTurn (gen : Nat → String → String) (speaker tail : String)
    (st : InterviewState) : InterviewState :=
  idiPush st speaker
    (gen st.log.length ("Current context:\n" ++ st.context ++ "\n\n" ++ tail))
    ("Current context:\n" ++ st.context ++ "\n\n" ++ tail)

/-- The final respondent turn, with the context left unchanged. -/
def idiFinalTurn (gen : Nat → String → String) (speaker tail : String)
    (st : InterviewState) : InterviewState :=
  idiFinalPush st speaker
    (gen st.log.length ("Current context:\n" ++ st.context ++ "\n\n" ++ tail))
    ("Current context:\n" ++ st.context ++ "\n\n" ++ tail)

/-- The main interview loop `while question_count < num_questions`
(lines 419-449): each iteration is one interviewer turn followed by one
respondent turn; `k` counts the remaining iterations. -/
def interviewLoop (gen : Nat → String → String) (iname rname topic : String) :
    Nat → InterviewState → InterviewState
  | 0, st => st
  | k + 1, st =>
    interviewLoop gen iname rname topic k
      (idiTurn gen rname
        ("You are " ++ rname ++ ". Respond to the latest question based strictly on your persona profile.")
        (idiTurn gen iname
          ("You are " ++ iname ++ ". Ask your next question or follow-up to " ++ rname ++
            " exploring the topic " ++ topic ++ " deeply.")
          st))

/-- Embeds `run_interview` (idi_simulation.py lines 379-478): the initial
context, the introduction pair of turns, `num_questions - 1` loop
iterations, the concluding interviewer turn and the final respondent
turn. -/
def runInterview (gen : Nat → String → String) (iname rname topic respondentInfo : String)
    (numQuestions : Nat) : InterviewState :=
  idiFinalTurn gen rname
    ("You are " ++ rname ++ ". This is your final response. Share concluding thoughts on " ++
      topic ++ " and respond to the thank you.")
    (idiTurn gen iname
      ("This is the final part of the interview. Ask " ++ rname ++
        " a concluding question about " ++ topic ++ " and thank them for their time.")
      (interviewLoop gen iname rname topic (numQuestions - 1)
        (idiTurn gen rname
          ("You are " ++ rname ++
            ". Respond to the introduction and first question based strictly on your persona.")
          (idiTurn gen iname
            ("Start the interview. Introduce yourself (" ++ iname ++
              "), explain the purpose about " ++ topic ++ ", establish rapport with " ++
              rname ++ ", and ask your first question.")
            ⟨[], "The interview topic is: " ++ topic ++ "\nInterviewer: " ++ iname ++
              "\nRespondent: " ++ rname ++ " (" ++ respondentInfo ++ ")", []⟩))))

/-- Placeholder log entry for stating positional properties. -/
def dummyIdiLogEntry : String × (String × String) :=
  ("", ("", ""))

/-- A concrete total backend oracle for the interview. -/
def sampleIdiGen : Nat → String → String :=
  fun n _ => "answer number " ++ toString n

end IDI

/-- The invariant of the focus-group simulation loop: the transcript lists
exactly the logged turns in generation order; every logged turn's content
is literally contained in the current context; and every turn's prompt
literally contains the content of every earlier turn. -/
def FGInv (st : FocusGroup.SimState) : Prop :=
  st.transcript = st.log.map Prod.snd ∧
  (∀ pe ∈ st.log, pe.2.content.data <:+: st.context.data) ∧
  (∀ i j, i < j → j < st.log.length →
    ((st.log.getD i FocusGroup.dummyLogEntry).2.content.data) <:+:
      ((st.log.getD j FocusGroup.dummyLogEntry).1.data))

/-- The invariant of the interview loop: transcript/log pairing, context
containment of every logged dialogue, and causal prompt containment. -/
def IDIInv (st : IDI.InterviewState) : Prop :=
  st.transcript = st.log.map Prod.snd ∧
  (∀ pe ∈ st.log, pe.2.2.data <:+: st.context.data) ∧
  (∀ i j, i < j → j < st.log.length →
    ((st.log.getD i IDI.dummyIdiLogEntry).2.2.data) <:+:
      ((st.log.getD j IDI.dummyIdiLogEntry).1.data))

namespace Survey

/-- The outcome of one pipeline stage: `ok a` means the stage completed
and persisted its artifact `a` before returning (every stage function
writes its file — real or fallback — before its `return`); `error e`
means the stage raised without persisting. -/
structure StageOracles (A E : Type) where
  designSurvey : Except E A
  generateRespondents : Except E A
  collectResponses : A → A → Except E A
  processData : A → A → Except E A
  analyzeData : A → A → Except E A
  generateVisualizations : A → A → A → Except E A
  generateFinalReport : A → A → Except E A

/-- The run status recorded in `parameters.json`. -/
inductive RunStatus (E : Type) where
  | completed
  | failed (error : E)
deriving Repr, DecidableEq

/-- The observable outcome of a pipeline run: the persisted artifacts (in
persistence order, keyed by artifact name), the stages that were invoked
(in invocation order) and the final recorded status. -/
structure RunResult (A E : Type) where
  persisted : List (String × A)
  invoked : List String
  status : RunStatus E

/-- Embeds `run_survey_simulation` (survey_simulation.py lines 1260-1341):
the seven stages run strictly in order inside one try-block, each
persisting its artifact before returning; the first raising stage aborts
the run, `parameters.json` is rewritten with status `failed` and the
error message, no later stage runs, and everything already persisted
stays in place.  When all stages complete, `parameters.json` records
status `completed`. -/
def runSurveySimulation {A E : Type} (o : StageOracles A E) : RunResult A E :=
  match o.designSurvey with
  | .error e => ⟨[], ["design_survey"], .failed e⟩
  | .ok survey =>
    match o.generateRespondents with
    | .error e =>
      ⟨[("survey_questions", survey)],
       ["design_survey", "generate_respondents"], .failed e⟩
    | .ok respondents =>
      match o.collectResponses survey respondents with
      | .error e =>
        ⟨[("survey_questions", survey), ("respondents", respondents)],
         ["design_survey", "generate_respondents", "collect_survey_responses"], .failed e⟩
      | .ok responses =>
        match o.processData survey responses with
        | .error e =>
          ⟨[("survey_questions", survey), ("respondents", respondents),
            ("survey_responses_raw", responses)],
           ["design_survey", "generate_respondents", "collect_survey_responses",
            "process_survey_data"], .failed e⟩
        | .ok processed =>
          match o.analyzeData survey processed with
          | .error e =>
            ⟨[("survey_questions", survey), ("respondents", respondents),
              ("survey_responses_raw", responses), ("survey_data_processed", processed)],
             ["design_survey", "generate_respondents", "collect_survey_responses",
              "process_survey_data", "analyze_survey_data"], .failed e⟩
          | .ok analysis =>
            match o.generateVisualizations survey processed analysis with
            | .error e =>
              ⟨[("survey_questions", survey), ("respondents", respondents),
                ("survey_responses_raw", responses), ("survey_data_processed", processed),
                ("survey_analysis", analysis)],
               ["design_survey", "generate_respondents", "collect_survey_responses",
                "process_survey_data", "analyze_survey_data", "generate_visualizations"],
               .failed e⟩
            | .ok viz =>
              match o.generateFinalReport analysis viz with
              | .error e =>
                ⟨[("survey_questions", survey), ("respondents", respondents),
                  ("survey_responses_raw", responses), ("survey_data_processed", processed),
                  ("survey_analysis", analysis), ("visualizations", viz)],
                 ["design_survey", "generate_respondents", "collect_survey_responses",
                  "process_survey_data", "analyze_survey_data", "generate_visualizations",
                  "generate_final_report"], .failed e⟩
              | .ok report =>
                ⟨[("survey_questions", survey), ("respondents", respondents),
                  ("survey_responses_raw", responses), ("survey_data_processed", processed),
                  ("survey_analysis", analysis), ("visualizations", viz),
                  ("report", report)],
                 ["design_survey", "generate_respondents", "collect_survey_responses",
                  "process_survey_data", "analyze_survey_data", "generate_visualizations",
                  "generate_final_report"], .completed⟩

/-- The canonical stage invocation order of `run_survey_simulation`. -/
def stageOrder : List String :=
  ["design_survey", "generate_respondents", "collect_survey_responses",
   "process_survey_data", "analyze_survey_data", "generate_visualizations",
   "generate_final_report"]

/-- Concrete all-succeeding stage oracles. -/
def sampleOracles : StageOracles Nat String :=
  ⟨Except.ok 1, Except.ok 2, fun _ _ => Except.ok 3, fun _ _ => Except.ok 4,
   fun _ _ => Except.ok 5, fun _ _ _ => Except.ok 6, fun _ _ => Except.ok 7⟩

/-- Concrete stage oracles whose collection stage raises. -/
def sampleFailingOracles : StageOracles Nat String :=
  ⟨Except.ok 1, Except.ok 2, fun _ _ => Except.error "backend down",
   fun _ _ => Except.ok 4, fun _ _ => Except.ok 5, fun _ _ _ => Except.ok 6,
   fun _ _ => Except.ok 7⟩

end Survey

section RetryLemmas

open FocusGroup

/-- The attempt loop never uses more attempts than `attempt + fuel`. -/
theorem tenacityLoop_attempts_le {E A : Type} (retryable : E → Bool)
    (op : Nat → Except E A) :
    ∀ fuel attempt, (tenacityLoop retryable op attempt fuel).2 ≤ attempt + fuel := by
  intro fuel
  induction fuel with
  | zero =>
    intro attempt
    unfold tenacityLoop
    cases op attempt with
    | ok a => simp
    | error e =>
      by_cases h : retryable e = true
      · simp [h]
      · simp [h]
  | succ fuel ih =>
    intro attempt
    unfold tenacityLoop
    cases op attempt with
    | ok a => simp
    | error e =>
      by_cases h : retryable e = true
      · simp only [h, if_true]
        calc (tenacityLoop retryable op (attempt + 1) fuel).2
            ≤ (attempt + 1) + fuel := ih (attempt + 1)
          _ = attempt + (fuel + 1) := by omega
      · simp [h]

end RetryLemmas

/-- C3 falsified as stated: the claim quantifies over every triple whose sum
is outside `[0.99, 1.01]`, but the all-zero triple `(0, 0, 0)` (sum `0`,
outside the band) makes `validate_percentages` raise `ZeroDivisionError`
instead of yielding any reconciled triple. -/
theorem c3_counterexample_zero_triple :
    FocusGroup.validatePercentages ⟨0, 0, 0⟩ = Except.error FocusGroup.PyError.zeroDivision := by
  norm_num [FocusGroup.validatePercentages, FocusGroup.pyDiv]

/-- C3 (amended): for every sentiment triple whose sum is outside
`[0.99, 1.01]` and nonzero, `validate_percentages` returns a triple that
sums to exactly 1 (hence within `1e-6` of 1.0) with every component scaled
by the same factor `1 / total`, preserving relative proportions. -/
theorem c3_sentiment_normalization (s : FocusGroup.SentimentScore)
    (hband : ¬((99/100 : ℚ) ≤ s.positive + s.neutral + s.negative ∧
        s.positive + s.neutral + s.negative ≤ (101/100 : ℚ)))
    (hnz : s.positive + s.neutral + s.negative ≠ 0) :
    ∃ t : FocusGroup.SentimentScore,
      FocusGroup.validatePercentages s = Except.ok t ∧
      t.positive + t.neutral + t.negative = 1 ∧
      t.positive = s.positive * (1 / (s.positive + s.neutral + s.negative)) ∧
      t.neutral = s.neutral * (1 / (s.positive + s.neutral + s.negative)) ∧
      t.negative = s.negative * (1 / (s.positive + s.neutral + s.negative)) := by
  refine ⟨⟨s.positive * (1 / (s.positive + s.neutral + s.negative)),
           s.neutral * (1 / (s.positive + s.neutral + s.negative)),
           s.negative * (1 / (s.positive + s.neutral + s.negative))⟩, ?_, ?_, rfl, rfl, rfl⟩
  · unfold FocusGroup.validatePercentages FocusGroup.pyDiv
    simp only [if_neg hband, if_neg hnz]
  · field_simp

/-- Witness for C3 (amended) at the spec's example triple `(0.9, 0.9, 0.9)`:
its sum `2.7` lies outside the band and is nonzero, and the reconciled
triple is `(1/3, 1/3, 1/3)`. -/
theorem c3_sentiment_normalization_witness :
    (¬((99/100 : ℚ) ≤ (9/10 : ℚ) + 9/10 + 9/10 ∧ (9/10 : ℚ) + 9/10 + 9/10 ≤ (101/100 : ℚ))) ∧
    ((9/10 : ℚ) + 9/10 + 9/10 ≠ 0) ∧
    (∃ t : FocusGroup.SentimentScore,
      FocusGroup.validatePercentages ⟨9/10, 9/10, 9/10⟩ = Except.ok t ∧
      t.positive + t.neutral + t.negative = 1 ∧
      t.positive = (9/10 : ℚ) * (1 / ((9/10 : ℚ) + 9/10 + 9/10)) ∧
      t.neutral = (9/10 : ℚ) * (1 / ((9/10 : ℚ) + 9/10 + 9/10)) ∧
      t.negative = (9/10 : ℚ) * (1 / ((9/10 : ℚ) + 9/10 + 9/10))) :=
  ⟨by norm_num, by norm_num,
   c3_sentiment_normalization ⟨9/10, 9/10, 9/10⟩ (by norm_num) (by norm_num)⟩

/-- C9: the sentiment-score normalization is not total; any triple whose
components sum to exactly zero makes `validate_percentages` compute
`1.0 / total` unguarded and raise `ZeroDivisionError` instead of returning
a normalized triple. -/
theorem c9_zero_total_raises (s : FocusGroup.SentimentScore)
    (h : s.positive + s.neutral + s.negative = 0) :
    FocusGroup.validatePercentages s = Except.error FocusGroup.PyError.zeroDivision := by
  unfold FocusGroup.validatePercentages FocusGroup.pyDiv
  rw [h]
  norm_num

/-- Witness for C9 at the concrete all-zero triple `(0, 0, 0)`. -/
theorem c9_zero_total_raises_witness :
    ((0 : ℚ) + 0 + 0 = 0) ∧
    FocusGroup.validatePercentages ⟨0, 0, 0⟩ = Except.error FocusGroup.PyError.zeroDivision :=
  ⟨by norm_num, c9_zero_total_raises ⟨0, 0, 0⟩ (by norm_num)⟩

/-- C6 falsified as stated: after exhausting its 3 attempts on an operation
that always fails with a retryable parse error, the wrapper does not return
the last error to the caller — it throws, raising a tenacity `RetryError`
that wraps the last exception (the decorator keeps the default
`reraise=False`, so nothing is returned). -/
theorem c6_counterexample_retry_throws :
    FocusGroup.withRetry FocusGroup.retryIfExceptionType 3
        (fun _ => (Except.error FocusGroup.FGError.jsonDecodeError : Except FocusGroup.FGError Nat)) =
      (FocusGroup.CallResult.throws
        (FocusGroup.TenacityException.retryError FocusGroup.FGError.jsonDecodeError), 3) := by
  decide

/-- C6 (amended): for every operation wrapped by the retry policy, the
operation is attempted at most 3 times; only parse/validation errors
trigger a retry (a non-retryable first error is re-raised at once after a
single attempt); the exponential backoff delays are non-decreasing and
bounded between the configured minimum and maximum; and after exhausting
all attempts the wrapper raises a `RetryError` wrapping the last error to
the caller rather than returning it. -/
theorem c6_retry_policy :
    (∀ (A : Type) (op : Nat → Except FocusGroup.FGError A),
      (FocusGroup.withRetry FocusGroup.retryIfExceptionType 3 op).2 ≤ 3) ∧
    (∀ (A : Type) (op : Nat → Except FocusGroup.FGError A) (e : FocusGroup.FGError),
      op 1 = Except.error e → FocusGroup.retryIfExceptionType e = false →
      FocusGroup.withRetry FocusGroup.retryIfExceptionType 3 op =
        (FocusGroup.CallResult.throws (FocusGroup.TenacityException.exn e), 1)) ∧
    (∀ (multiplier minB maxB : ℚ) (m n : Nat), 0 ≤ multiplier → m ≤ n →
      FocusGroup.waitExponential multiplier minB maxB m ≤
        FocusGroup.waitExponential multiplier minB maxB n) ∧
    (∀ (multiplier minB maxB : ℚ) (n : Nat), 0 ≤ minB → minB ≤ maxB →
      minB ≤ FocusGroup.waitExponential multiplier minB maxB n ∧
        FocusGroup.waitExponential multiplier minB maxB n ≤ maxB) ∧
    (∀ (A : Type) (op : Nat → Except FocusGroup.FGError A)
        (e₁ e₂ e₃ : FocusGroup.FGError),
      op 1 = Except.error e₁ → FocusGroup.retryIfExceptionType e₁ = true →
      op 2 = Except.error e₂ → FocusGroup.retryIfExceptionType e₂ = true →
      op 3 = Except.error e₃ → FocusGroup.retryIfExceptionType e₃ = true →
      FocusGroup.withRetry FocusGroup.retryIfExceptionType 3 op =
        (FocusGroup.CallResult.throws (FocusGroup.TenacityException.retryError e₃), 3)) := by
  refine ⟨?_, ?_, ?_, ?_, ?_⟩
  · intro A op
    have h := tenacityLoop_attempts_le FocusGroup.retryIfExceptionType op 2 1
    simpa [FocusGroup.withRetry] using h
  · intro A op e h1 hr
    unfold FocusGroup.withRetry
    unfold FocusGroup.tenacityLoop
    simp [h1, hr]
  · intro multiplier minB maxB m n hmul hmn
    unfold FocusGroup.waitExponential
    apply max_le_max (le_refl _)
    apply min_le_min _ (le_refl _)
    apply mul_le_mul_of_nonneg_left _ hmul
    exact pow_le_pow_right₀ (by norm_num) hmn
  · intro multiplier minB maxB n hmin hle
    constructor
    · unfold FocusGroup.waitExponential
      exact le_max_of_le_left (le_max_right 0 minB)
    · unfold FocusGroup.waitExponential
      apply max_le
      · exact max_le (hmin.trans hle) hle
      · exact min_le_right _ _
  · intro A op e₁ e₂ e₃ h1 hr1 h2 hr2 h3 hr3
    unfold FocusGroup.withRetry
    unfold FocusGroup.tenacityLoop
    simp only [h1, hr1, if_true]
    unfold FocusGroup.tenacityLoop
    simp only [h2, hr2, if_true]
    unfold FocusGroup.tenacityLoop
    simp [h3, hr3]

/-- Witness for C6 (amended): concrete instantiations of every conjunct —
an always-failing parse operation is attempted exactly 3 times and ends in
a thrown `RetryError`; a fatal configuration error is re-raised after one
attempt; and the configured backoff `wait_exponential(1, min=2, max=10)`
is non-decreasing and within its bounds at attempt numbers 1 and 2. -/
theorem c6_retry_policy_witness :
    ((FocusGroup.withRetry FocusGroup.retryIfExceptionType 3
        (fun _ => (Except.error FocusGroup.FGError.jsonDecodeError : Except FocusGroup.FGError Nat))).2 ≤ 3) ∧
    (FocusGroup.withRetry FocusGroup.retryIfExceptionType 3
        (fun _ => (Except.error (FocusGroup.FGError.otherError "bad config") : Except FocusGroup.FGError Nat)) =
      (FocusGroup.CallResult.throws
        (FocusGroup.TenacityException.exn (FocusGroup.FGError.otherError "bad config")), 1)) ∧
    (FocusGroup.waitExponential 1 2 10 1 ≤ FocusGroup.waitExponential 1 2 10 2) ∧
    ((2 : ℚ) ≤ FocusGroup.waitExponential 1 2 10 1 ∧ FocusGroup.waitExponential 1 2 10 1 ≤ 10) ∧
    (FocusGroup.withRetry FocusGroup.retryIfExceptionType 3
        (fun _ => (Except.error FocusGroup.FGError.validationError : Except FocusGroup.FGError Nat)) =
      (FocusGroup.CallResult.throws
        (FocusGroup.TenacityException.retryError FocusGroup.FGError.validationError), 3)) :=
  ⟨c6_retry_policy.1 Nat _,
   c6_retry_policy.2.1 Nat _ (FocusGroup.FGError.otherError "bad config") rfl rfl,
   c6_retry_policy.2.2.1 1 2 10 1 2 (by norm_num) (by norm_num),
   c6_retry_policy.2.2.2.1 1 2 10 1 (by norm_num) (by norm_num),
   c6_retry_policy.2.2.2.2 Nat _ FocusGroup.FGError.validationError
     FocusGroup.FGError.validationError FocusGroup.FGError.validationError
     rfl rfl rfl rfl rfl rfl⟩

section TranscriptMetricsLemmas

open FocusGroup

theorem assocLookup_assocAdd (m : List (String × Nat)) (k : String) (n : Nat) (s : String) :
    assocLookup (assocAdd m k n) s =
      if k = s then some ((assocLookup m s).getD 0 + n) else assocLookup m s := by
  induction m with
  | nil =>
    unfold assocAdd assocLookup
    split_ifs with h
    · simp [assocLookup, h]
    · simp [assocLookup, h]
  | cons p rest ih =>
    obtain ⟨k', v⟩ := p
    unfold assocAdd
    by_cases hk : k' = k
    · subst hk
      by_cases hs : k' = s
      · subst hs
        simp [assocLookup]
      · simp [assocLookup, hs]
    · simp only [if_neg hk]
      by_cases hs : k' = s
      · subst hs
        have : ¬(k = k') := fun h => hk h.symm
        simp [assocLookup, this]
      · simp [assocLookup, hs, ih]

theorem assocLookup_append_single {β : Type} (m : List (String × β)) (k : String) (v : β)
    (s : String) (h : assocLookup m s = none) :
    assocLookup (m ++ [(k, v)]) s = if k = s then some v else none := by
  induction m with
  | nil => simp [assocLookup]
  | cons p rest ih =>
    obtain ⟨k', w⟩ := p
    simp only [List.cons_append, assocLookup] at h ⊢
    by_cases hs : k' = s
    · simp [hs] at h
    · simp only [if_neg hs] at h ⊢
      exact ih h

theorem assocAdd_append_zero (m : List (String × Nat)) (k : String) (n : Nat)
    (h : assocLookup m k = none) :
    assocAdd (m ++ [(k, 0)]) k n = assocAdd m k n := by
  induction m with
  | nil => simp [assocAdd]
  | cons p rest ih =>
    obtain ⟨k', v⟩ := p
    unfold assocLookup at h
    by_cases hk : k' = k
    · simp [hk] at h
    · simp only [if_neg hk] at h
      unfold assocAdd
      simp only [List.cons_append, if_neg hk]
      rw [ih h]

theorem metricsStep_projections (T' : List DialogueEntry) (st : MetricsState)
    (e : DialogueEntry) (hsync : KeysSync st) :
    (metricsStep T' st e).word_counts =
        assocAdd st.word_counts e.speaker_id (pyWordCount e.content) ∧
    (metricsStep T' st e).response_counts = assocAdd st.response_counts e.speaker_id 1 ∧
    KeysSync (metricsStep T' st e) := by
  have hwc : (metricsStep T' st e).word_counts =
      assocAdd st.word_counts e.speaker_id (pyWordCount e.content) := by
    unfold metricsStep
    by_cases h : (assocLookup st.word_counts e.speaker_id).isSome
    · simp [h]
    · simp only [h, if_false, Bool.false_eq_true]
      have hn : assocLookup st.word_counts e.speaker_id = none :=
        Option.not_isSome_iff_eq_none.mp h
      exact assocAdd_append_zero _ _ _ hn
  have hrc : (metricsStep T' st e).response_counts =
      assocAdd st.response_counts e.speaker_id 1 := by
    unfold metricsStep
    by_cases h : (assocLookup st.word_counts e.speaker_id).isSome
    · simp [h]
    · simp only [h, if_false, Bool.false_eq_true]
      have hn : assocLookup st.word_counts e.speaker_id = none :=
        Option.not_isSome_iff_eq_none.mp h
      have hn' : assocLookup st.response_counts e.speaker_id = none :=
        (hsync e.speaker_id).mp hn
      exact assocAdd_append_zero _ _ _ hn'
  refine ⟨hwc, hrc, ?_⟩
  intro s
  rw [hwc, hrc, assocLookup_assocAdd, assocLookup_assocAdd]
  by_cases h : e.speaker_id = s
  · simp [h]
  · simp only [if_neg h]
    exact hsync s

theorem foldl_metricsStep (T' : List DialogueEntry) :
    ∀ (l : List DialogueEntry) (st : MetricsState), KeysSync st →
      (l.foldl (metricsStep T') st).word_counts =
          l.foldl (fun m e => assocAdd m e.speaker_id (pyWordCount e.content)) st.word_counts ∧
      (l.foldl (metricsStep T') st).response_counts =
          l.foldl (fun m e => assocAdd m e.speaker_id 1) st.response_counts ∧
      KeysSync (l.foldl (metricsStep T') st) := by
  intro l
  induction l with
  | nil => intro st h; exact ⟨rfl, rfl, h⟩
  | cons e rest ih =>
    intro st h
    obtain ⟨hwc, hrc, hsync⟩ := metricsStep_projections T' st e h
    obtain ⟨ihwc, ihrc, ihsync⟩ := ih (metricsStep T' st e) hsync
    refine ⟨?_, ?_, ihsync⟩
    · simpa [List.foldl_cons, hwc] using ihwc
    · simpa [List.foldl_cons, hrc] using ihrc

theorem assocLookup_foldl_assocAdd {α : Type} (key : α → String) (val : α → Nat) :
    ∀ (l : List α) (m : List (String × Nat)) (s : String),
      assocLookup (l.foldl (fun m e => assocAdd m (key e) (val e)) m) s =
        match assocLookup m s with
        | some v => some (v + ((l.filter (fun e => key e == s)).map val).sum)
        | none =>
          if l.any (fun e => key e == s)
          then some (((l.filter (fun e => key e == s)).map val).sum)
          else none := by
  intro l
  induction l with
  | nil =>
    intro m s
    cases h : assocLookup m s <;> simp [h]
  | cons e rest ih =>
    intro m s
    rw [List.foldl_cons, ih]
    rw [assocLookup_assocAdd]
    by_cases hk : key e = s
    · have hkb : (key e == s) = true := by simp [hk]
      cases h : assocLookup m s with
      | none => simp [h, hk, hkb, List.filter_cons, Nat.add_assoc]
      | some v => simp [h, hk, hkb, List.filter_cons, Nat.add_assoc]
    · have hkb : (key e == s) = false := by simp [hk]
      cases h : assocLookup m s with
      | none => simp [h, hk, hkb, List.filter_cons]
      | some v => simp [h, hk, hkb, List.filter_cons]

end TranscriptMetricsLemmas

section TranscriptMetricsLemmasTwo

open FocusGroup

theorem sum_map_one {α : Type} (l : List α) : (l.map (fun _ => (1 : Nat))).sum = l.length := by
  induction l with
  | nil => rfl
  | cons x rest ih => simp [ih]; omega

theorem computeMetricsState_wc_lookup (T : List DialogueEntry) (s : String)
    (hs : T.any (fun e => e.speaker_id == s) = true) :
    assocLookup (computeMetricsState T).word_counts s = some (totalWords T s) := by
  have hsync : KeysSync ⟨[], [], []⟩ := fun _ => Iff.rfl
  obtain ⟨hwc, _, _⟩ := foldl_metricsStep T T ⟨[], [], []⟩ hsync
  unfold computeMetricsState
  rw [hwc]
  have h := assocLookup_foldl_assocAdd (fun e : DialogueEntry => e.speaker_id)
    (fun e => pyWordCount e.content) T [] s
  simp only [assocLookup] at h
  rw [h]
  simp [hs, totalWords]

theorem computeMetricsState_rc_lookup (T : List DialogueEntry) (s : String)
    (hs : T.any (fun e => e.speaker_id == s) = true) :
    assocLookup (computeMetricsState T).response_counts s = some (totalResponses T s) := by
  have hsync : KeysSync ⟨[], [], []⟩ := fun _ => Iff.rfl
  obtain ⟨_, hrc, _⟩ := foldl_metricsStep T T ⟨[], [], []⟩ hsync
  unfold computeMetricsState
  rw [hrc]
  have h := assocLookup_foldl_assocAdd (fun e : DialogueEntry => e.speaker_id)
    (fun _ => 1) T [] s
  simp only [assocLookup] at h
  rw [h]
  simp [hs, totalResponses, sum_map_one]

theorem assocLookup_filterMap_metrics (T : List DialogueEntry) (s : String)
    (hmod : ¬ s = "Moderator") :
    ∀ m : List (String × Nat),
      assocLookup (m.filterMap fun p =>
        if p.1 = "Moderator" then none
        else some (p.1,
          (⟨p.2, (assocLookup (computeMetricsState T).response_counts p.1).getD 0,
            interactionScore p.2
              ((assocLookup (computeMetricsState T).interaction_map p.1).getD []).length⟩ :
            ParticipantMetrics))) s =
      (assocLookup m s).map (fun v =>
        (⟨v, (assocLookup (computeMetricsState T).response_counts s).getD 0,
          interactionScore v
            ((assocLookup (computeMetricsState T).interaction_map s).getD []).length⟩ :
          ParticipantMetrics)) := by
  intro m
  induction m with
  | nil => simp [assocLookup]
  | cons p rest ih =>
    obtain ⟨k, v⟩ := p
    by_cases hk : k = "Moderator"
    · have hsm : ¬ ("Moderator" = s) := fun hh => hmod hh.symm
      simp [List.filterMap_cons, hk, assocLookup, hsm, ih]
    · by_cases hs : k = s
      · subst hs
        simp [List.filterMap_cons, hk, assocLookup]
      · simp [List.filterMap_cons, hk, assocLookup, hs, ih]

end TranscriptMetricsLemmasTwo

/-- C4 falsified as stated: when the backend's self-reported engagement
metrics are non-empty, `analyze_transcript` keeps them verbatim (line 739
guards the recomputation with `if not analysis_data.engagement_metrics`).
Here a speaker produces turns of 10 and 15 words (recomputed total 25),
yet a conflicting model-reported word count of 999 survives into the final
metrics. -/
theorem c4_counterexample_model_metrics_trusted :
    assocLookup
        (FocusGroup.finalEngagementMetrics
          [⟨"Participant_1", "Alice", "a b c d e f g h i j"⟩,
           ⟨"Moderator", "Moderator", "noted thanks"⟩,
           ⟨"Participant_1", "Alice", "a b c d e f g h i j k l m n o"⟩]
          [("Participant_1", ⟨999, 1, 0⟩)]) "Participant_1" =
      some ⟨999, 1, 0⟩ ∧
    FocusGroup.totalWords
        [⟨"Participant_1", "Alice", "a b c d e f g h i j"⟩,
         ⟨"Moderator", "Moderator", "noted thanks"⟩,
         ⟨"Participant_1", "Alice", "a b c d e f g h i j k l m n o"⟩]
        "Participant_1" = 25 ∧
    (999 : Nat) ≠ 25 := by
  refine ⟨rfl, ?_, by decide⟩
  decide

/-- C4 (amended): whenever the model-reported engagement metrics are
absent/empty, the per-speaker word counts and response counts in the final
metrics equal the counts recomputed directly from the transcript text (a
speaker producing two turns of 10 and 15 words gets a total word count of
25); a non-empty model-reported metrics dict, however, is kept verbatim. -/
theorem c4_recomputed_counts (T : List FocusGroup.DialogueEntry)
    (M : List (String × FocusGroup.ParticipantMetrics))
    (hM : M.isEmpty = true) (s : String) (hmod : ¬ s = "Moderator")
    (hs : T.any (fun e => e.speaker_id == s) = true) :
    ∃ pm : FocusGroup.ParticipantMetrics,
      assocLookup (FocusGroup.finalEngagementMetrics T M) s = some pm ∧
      pm.word_count = FocusGroup.totalWords T s ∧
      pm.response_count = FocusGroup.totalResponses T s := by
  have hfin : FocusGroup.finalEngagementMetrics T M = FocusGroup.computedEngagementMetrics T := by
    unfold FocusGroup.finalEngagementMetrics
    simp [hM]
  rw [hfin]
  unfold FocusGroup.computedEngagementMetrics
  rw [assocLookup_filterMap_metrics T s hmod]
  rw [computeMetricsState_wc_lookup T s hs, computeMetricsState_rc_lookup T s hs]
  exact ⟨_, rfl, rfl, rfl⟩

/-- Witness for C4 (amended): the spec's 10-word/15-word transcript with
empty model metrics; the recomputed word count is 25 and the response
count 2. -/
theorem c4_recomputed_counts_witness :
    (([] : List (String × FocusGroup.ParticipantMetrics)).isEmpty = true) ∧
    (¬ ("Participant_1" : String) = "Moderator") ∧
    ([⟨"Participant_1", "Alice", "a b c d e f g h i j"⟩,
      ⟨"Moderator", "Moderator", "noted thanks"⟩,
      ⟨"Participant_1", "Alice", "a b c d e f g h i j k l m n o"⟩] :
        List FocusGroup.DialogueEntry).any (fun e => e.speaker_id == "Participant_1") = true ∧
    (∃ pm : FocusGroup.ParticipantMetrics,
      assocLookup
          (FocusGroup.finalEngagementMetrics
            [⟨"Participant_1", "Alice", "a b c d e f g h i j"⟩,
             ⟨"Moderator", "Moderator", "noted thanks"⟩,
             ⟨"Participant_1", "Alice", "a b c d e f g h i j k l m n o"⟩] []) "Participant_1" =
        some pm ∧
      pm.word_count = FocusGroup.totalWords
        [⟨"Participant_1", "Alice", "a b c d e f g h i j"⟩,
         ⟨"Moderator", "Moderator", "noted thanks"⟩,
         ⟨"Participant_1", "Alice", "a b c d e f g h i j k l m n o"⟩] "Participant_1" ∧
      pm.response_count = FocusGroup.totalResponses
        [⟨"Participant_1", "Alice", "a b c d e f g h i j"⟩,
         ⟨"Moderator", "Moderator", "noted thanks"⟩,
         ⟨"Participant_1", "Alice", "a b c d e f g h i j k l m n o"⟩] "Participant_1") ∧
    FocusGroup.totalWords
        [⟨"Participant_1", "Alice", "a b c d e f g h i j"⟩,
         ⟨"Moderator", "Moderator", "noted thanks"⟩,
         ⟨"Participant_1", "Alice", "a b c d e f g h i j k l m n o"⟩] "Participant_1" = 25 :=
  ⟨rfl, by decide, by decide,
   c4_recomputed_counts _ [] rfl "Participant_1" (by decide) (by decide),
   by decide⟩

/-- C5 falsified as stated: the persisted fallback objects carry no
explicit degraded marker — the key `degraded` occurs nowhere (top level or
nested) in the IDI generic persona, nor in a concrete generic survey
respondent profile. -/
theorem c5_counterexample_no_degraded_marker :
    hasKeyDeep IDI.genericPersona "degraded" = false ∧
    hasKeyDeep (Survey.genericRespondent 1 42) "degraded" = false := by
  constructor
  · simp [IDI.genericPersona, hasKeyDeep, hasKeyDeepFields, hasKeyDeepItems]
  · simp [Survey.genericRespondent, Survey.fallbackRespondentId,
      hasKeyDeep, hasKeyDeepFields, hasKeyDeepItems]

/-- C5 (amended): the fallback survey respondent profiles are marked only
implicitly, by the `_fallback` suffix baked into their `respondent_id`
(`R{i:03d}_fallback`), and carry no `degraded` key anywhere in the
persisted object; the IDI generic persona carries no `degraded` key either
and is distinguishable only by its fixed placeholder values (name
`Generic Person`). -/
theorem c5_fallback_markers (i age : Nat) :
    jsonLookup (Survey.genericRespondent i age) "respondent_id" =
      some (.str ("R" ++ pad3 i ++ "_fallback")) ∧
    hasKeyDeep (Survey.genericRespondent i age) "degraded" = false ∧
    hasKeyDeep IDI.genericPersona "degraded" = false ∧
    jsonLookup IDI.genericPersona "name" = some (.str "Generic Person") := by
  refine ⟨rfl, ?_, ?_, rfl⟩
  · simp [Survey.genericRespondent, Survey.fallbackRespondentId,
      hasKeyDeep, hasKeyDeepFields, hasKeyDeepItems]
  · simp [IDI.genericPersona, hasKeyDeep, hasKeyDeepFields, hasKeyDeepItems]

/-- C7 falsified as stated: two invocations of the respondent-generation
fallback with the same `num_respondents` (1) but different valid
`random.randint(18, 75)` draws (18 versus 19) produce different profile
lists — the `demographics.age` field differs. -/
theorem c7_counterexample_random_fallback :
    ((18 : Nat) ≤ 18 ∧ (18 : Nat) ≤ 75) ∧ ((18 : Nat) ≤ 19 ∧ (19 : Nat) ≤ 75) ∧
    (Survey.genericRespondents (fun _ => 18) 1).map Survey.demographicsAge =
      [some (Json.num 18)] ∧
    (Survey.genericRespondents (fun _ => 19) 1).map Survey.demographicsAge =
      [some (Json.num 19)] ∧
    [some (Json.num 18)] ≠ [some (Json.num 19)] := by
  refine ⟨by norm_num, by norm_num, rfl, rfl, ?_⟩
  intro h
  have h1 : some (Json.num 18) = some (Json.num 19) := by injection h
  have h2 : Json.num (18 : ℚ) = Json.num 19 := by injection h1
  have h3 : (18 : ℚ) = 19 := by injection h2
  norm_num at h3

/-- C7 (amended): the fallback synthesizer is deterministic except for the
randomly drawn `demographics.age` field — for every requested count, two
invocations of the respondent-generation fallback produce profile lists
that agree on every other field (erasing `demographics.age` makes the two
runs identical, ids and all). -/
theorem c7_fallback_deterministic_modulo_age (n : Nat) (ages1 ages2 : Nat → Nat) :
    (Survey.genericRespondents ages1 n).map Survey.scrubAge =
      (Survey.genericRespondents ages2 n).map Survey.scrubAge := by
  induction n with
  | zero => rfl
  | succ n ih =>
    simp only [Survey.genericRespondents, List.map_append, ih, List.map_cons, List.map_nil]
    rfl

section SurveyCollectLemmas

open Survey

theorem originalRespondent_id (respondents : List Respondent) (r : Respondent) (i : Nat) :
    (originalRespondent respondents r (taskName i r)).respondent_id.getD (defaultTaskId i) =
      taskName i r := by
  unfold originalRespondent
  cases hf : respondents.find? (fun x => x.respondent_id == some (taskName i r)) with
  | none => rfl
  | some found =>
    have h := List.find?_some hf
    have h2 : found.respondent_id = some (taskName i r) := by
      simpa using h
    simp [h2]

theorem isValidAnswer_qid (a : Json) (h : isValidAnswer a = true) :
    ∃ q, answerQid a = some q := by
  cases a with
  | obj fields =>
    unfold isValidAnswer at h
    rw [Bool.and_eq_true] at h
    have h1 := h.1
    rw [Option.isSome_iff_exists] at h1
    obtain ⟨q, hq⟩ := h1
    exact ⟨q, by simp [answerQid, jsonLookup, hq]⟩
  | null => simp [isValidAnswer] at h
  | bool b => simp [isValidAnswer] at h
  | num q => simp [isValidAnswer] at h
  | str s => simp [isValidAnswer] at h
  | arr items => simp [isValidAnswer] at h

theorem collectValidAnswers_all_ok :
    ∀ (items : List Json),
      (∀ a ∈ items, isValidAnswer a = true ∧ hashableQid a = true) →
      collectValidAnswers items = Except.ok (items, items.filterMap answerQid) := by
  intro items
  induction items with
  | nil => intro _; rfl
  | cons a rest ih =>
    intro h
    have ha := h a (List.mem_cons_self _ _)
    obtain ⟨q, hq⟩ := isValidAnswer_qid a ha.1
    have hhash : isHashable q = true := by
      have h2 := ha.2
      unfold hashableQid at h2
      rw [hq] at h2
      exact h2
    have hrest := ih (fun x hx => h x (List.mem_cons_of_mem a hx))
    unfold collectValidAnswers
    simp only [ha.1, if_true, hq, hhash, hrest, List.filterMap_cons]

theorem agentError_flagged (p : Respondent) (msg : String) :
    (ResponseSet.flagged ⟨p, [agentErrorRecord msg]⟩) = true := by
  rfl

theorem processSuccess_wf (survey : SurveyQuestions)
    (loads : String → Except String Json) (raw : String)
    (hw : wellFormedResponse survey loads raw = true) :
    ∃ l, processSuccess survey loads raw = Except.ok l ∧
      l.any isErrorMarker = false := by
  unfold wellFormedResponse at hw
  unfold processSuccess
  cases hext : extractResponseJson (pyStrip raw) with
  | error e => rw [hext] at hw; simp at hw
  | ok jsonStr =>
    rw [hext] at hw
    simp only at hw ⊢
    cases hload : loads jsonStr with
    | error msg => rw [hload] at hw; simp at hw
    | ok j =>
      rw [hload] at hw
      cases j with
      | null => simp at hw
      | bool b => simp at hw
      | num q => simp at hw
      | str s => simp at hw
      | obj fields => simp at hw
      | arr items =>
        simp only at hw ⊢
        rw [Bool.and_eq_true] at hw
        obtain ⟨hall, hmiss⟩ := hw
        have hvalid : ∀ a ∈ items, isValidAnswer a = true ∧ hashableQid a = true := by
          intro a ha
          have h := List.all_eq_true.mp hall a ha
          rw [Bool.and_eq_true] at h
          obtain ⟨h1, h2⟩ := h
          rw [Bool.and_eq_true] at h1
          exact ⟨h1.1, h2⟩
        rw [collectValidAnswers_all_ok items hvalid]
        simp only [hmiss, if_true]
        refine ⟨items, rfl, ?_⟩
        rw [List.any_eq_false]
        intro a ha
        have h := List.all_eq_true.mp hall a ha
        rw [Bool.and_eq_true] at h
        have h1 := h.1
        rw [Bool.and_eq_true] at h1
        have h2 := h1.2
        simp at h2
        simp [h2]

theorem collectLoop_ok (survey : SurveyQuestions) (loads : String → Except String Json)
    (allR : List Respondent) :
    ∀ (rs : List Respondent) (os : List (Except String String)) (i : Nat),
      os.length = rs.length →
      (∀ raw, Except.ok raw ∈ os → wellFormedResponse survey loads raw = true) →
      ∃ results, collectLoop survey loads allR i rs os = Except.ok results ∧
        results.length = rs.length ∧
        (∀ k, k < rs.length →
          ((results.getD k dummyResponseSet).profile.respondent_id.getD
              (defaultTaskId (i + k)) = taskName (i + k) (rs.getD k dummyRespondent)) ∧
          ((results.getD k dummyResponseSet).flagged =
            outcomeFailed (os.getD k (Except.ok "")))) ∧
        ((results.filter (fun x => x.flagged)).length =
          (os.filter outcomeFailed).length) := by
  intro rs
  induction rs with
  | nil =>
    intro os i hlen _
    cases os with
    | nil =>
      refine ⟨[], rfl, rfl, ?_, rfl⟩
      intro k hk
      simp at hk
    | cons o os' => simp at hlen
  | cons r rest ih =>
    intro os i hlen hgood
    cases os with
    | nil => simp at hlen
    | cons o os' =>
      have hgood' : ∀ raw, Except.ok raw ∈ os' → wellFormedResponse survey loads raw = true :=
        fun raw hmem => hgood raw (List.mem_cons_of_mem o hmem)
      obtain ⟨results', hloop, hlen', hpt, hcount⟩ :=
        ih os' (i + 1) (by simpa using hlen) hgood'
      cases o with
      | error msg =>
        refine ⟨⟨originalRespondent allR r (taskName i r), [agentErrorRecord msg]⟩ :: results',
          ?_, ?_, ?_, ?_⟩
        · show (match processResult survey loads allR i r (Except.error msg) with
            | .error e => Except.error e
            | .ok x =>
              match collectLoop survey loads allR (i + 1) rest os' with
              | .error e => Except.error e
              | .ok xs => Except.ok (x :: xs)) = _
          rw [hloop]
          rfl
        · simpa using hlen'
        · intro k hk
          cases k with
          | zero =>
            constructor
            · simpa [Nat.add_zero] using originalRespondent_id allR r i
            · exact agentError_flagged _ msg
          | succ k' =>
            have hk' : k' < rest.length := by simpa using hk
            have := hpt k' hk'
            constructor
            · have h := this.1
              have hidx : i + 1 + k' = i + (k' + 1) := by omega
              rw [hidx] at h
              simpa using h
            · exact this.2
        · have hflag := agentError_flagged (originalRespondent allR r (taskName i r)) msg
          simp only [List.filter_cons, hflag, outcomeFailed, if_true, List.length_cons]
          rw [hcount]
      | ok raw =>
        have hw := hgood raw (List.mem_cons_self _ _)
        obtain ⟨l, hps, hflag⟩ := processSuccess_wf survey loads raw hw
        have hflag' : (ResponseSet.flagged ⟨originalRespondent allR r (taskName i r), l⟩) = false := hflag
        refine ⟨⟨originalRespondent allR r (taskName i r), l⟩ :: results', ?_, ?_, ?_, ?_⟩
        · show (match processResult survey loads allR i r (Except.ok raw) with
            | .error e => Except.error e
            | .ok x =>
              match collectLoop survey loads allR (i + 1) rest os' with
              | .error e => Except.error e
              | .ok xs => Except.ok (x :: xs)) = _
          have hpr : processResult survey loads allR i r (Except.ok raw) =
              Except.ok ⟨originalRespondent allR r (taskName i r), l⟩ := by
            show (match processSuccess survey loads raw with
              | .error e => Except.error e
              | .ok answers =>
                Except.ok (⟨originalRespondent allR r (taskName i r), answers⟩ : ResponseSet)) = _
            rw [hps]
          rw [hpr, hloop]
        · simpa using hlen'
        · intro k hk
          cases k with
          | zero =>
            constructor
            · simpa [Nat.add_zero] using originalRespondent_id allR r i
            · exact hflag'
          | succ k' =>
            have hk' : k' < rest.length := by simpa using hk
            have := hpt k' hk'
            constructor
            · have h := this.1
              have hidx : i + 1 + k' = i + (k' + 1) := by omega
              rw [hidx] at h
              simpa using h
            · exact this.2
        · simp only [List.filter_cons, hflag', outcomeFailed, Bool.false_eq_true, if_false]
          rw [hcount]

end SurveyCollectLemmas

/-- C1 falsified as stated: a per-item processing failure is not always
converted into a flagged record — a successful reply that decodes to an
answer list containing a dict whose `question_id` is itself a JSON list
makes `provided_q_ids.add` raise `TypeError` (unhashable type) at
survey_simulation.py line 707, which the except at line 723 does not
catch, so the whole batch aborts and raises to the caller instead of
yielding an N-entry result: here a batch with one respondent and zero
generation failures returns no result list at all. -/
theorem c1_counterexample_unhashable_id_aborts :
    (Survey.outcomeFailed (Except.ok "[bad]") = false) ∧
    (Survey.collectSurveyResponses Survey.sampleSurvey Survey.sampleBadLoads
        ([⟨some "R001", Json.null⟩] : List Survey.Respondent) [Except.ok "[bad]"] =
      Except.error Survey.SurveyAbort.typeErrorUnhashable) :=
  ⟨rfl, rfl⟩

/-- C1 (amended): for every fan-out batch of N respondents whose
successful replies are well-formed — each decoded answer a dict with a
hashable `question_id` and the required questions covered — the
collection returns (rather than raises) a result list of exactly N
entries in input order, entry i carrying respondent i's task identity;
generation failures become flagged error records, so with K permanent
failures exactly K entries are flagged and the other N−K are unflagged.
A successful reply containing an answer whose `question_id` is a JSON
list or dict instead raises an uncaught `TypeError` that aborts the whole
batch. -/
theorem c1_fanout_batch (survey : Survey.SurveyQuestions)
    (loads : String → Except String Json) (respondents : List Survey.Respondent)
    (outcomes : List (Except String String))
    (hlen : outcomes.length = respondents.length)
    (hgood : ∀ raw, Except.ok raw ∈ outcomes →
      Survey.wellFormedResponse survey loads raw = true) :
    ∃ results,
      Survey.collectSurveyResponses survey loads respondents outcomes =
        Except.ok results ∧
      results.length = respondents.length ∧
      (∀ i, i < respondents.length →
        ((results.getD i Survey.dummyResponseSet).profile.respondent_id.getD
            (Survey.defaultTaskId i) =
          Survey.taskName i (respondents.getD i Survey.dummyRespondent)) ∧
        ((results.getD i Survey.dummyResponseSet).flagged =
          Survey.outcomeFailed (outcomes.getD i (Except.ok "")))) ∧
      ((results.filter (fun x => x.flagged)).length =
        (outcomes.filter Survey.outcomeFailed).length) := by
  obtain ⟨results, hloop, hlen', hpt, hcount⟩ :=
    collectLoop_ok survey loads respondents respondents outcomes 0 hlen hgood
  refine ⟨results, hloop, hlen', ?_, hcount⟩
  intro i hi
  have := hpt i hi
  simpa [Nat.zero_add] using this

/-- Witness for C1 (amended) at a concrete batch of 3 respondents with 1
permanent failure: the collection returns a 3-entry list with exactly 1
flagged entry. -/
theorem c1_fanout_batch_witness :
    (Survey.sampleOutcomes.length = Survey.sampleRespondents.length) ∧
    (Survey.wellFormedResponse Survey.sampleSurvey Survey.sampleLoads "[x]" = true) ∧
    (∃ results,
      Survey.collectSurveyResponses Survey.sampleSurvey Survey.sampleLoads
          Survey.sampleRespondents Survey.sampleOutcomes = Except.ok results ∧
      results.length = Survey.sampleRespondents.length ∧
      (∀ i, i < Survey.sampleRespondents.length →
        ((results.getD i Survey.dummyResponseSet).profile.respondent_id.getD
            (Survey.defaultTaskId i) =
          Survey.taskName i (Survey.sampleRespondents.getD i Survey.dummyRespondent)) ∧
        ((results.getD i Survey.dummyResponseSet).flagged =
          Survey.outcomeFailed (Survey.sampleOutcomes.getD i (Except.ok "")))) ∧
      ((results.filter (fun x => x.flagged)).length =
        (Survey.sampleOutcomes.filter Survey.outcomeFailed).length)) ∧
    ((Survey.sampleOutcomes.filter Survey.outcomeFailed).length = 1) :=
  ⟨rfl, by decide,
   c1_fanout_batch Survey.sampleSurvey Survey.sampleLoads Survey.sampleRespondents
     Survey.sampleOutcomes rfl (by
       intro raw h
       simp [Survey.sampleOutcomes] at h
       subst h
       decide),
   by decide⟩


section FencedRegexLemmas

open Survey

theorem isPrefixOf_append_self : ∀ (a b : List Char), a.isPrefixOf (a ++ b) = true := by
  intro a
  induction a with
  | nil => intro b; simp [List.isPrefixOf]
  | cons c rest ih => intro b; simp [List.isPrefixOf, ih]

theorem dropWhile_append_all (w l : List Char) (h : w.all pyIsSpace = true) :
    (w ++ l).dropWhile pyIsSpace = l.dropWhile pyIsSpace := by
  induction w with
  | nil => rfl
  | cons c rest ih =>
    rw [List.all_cons, Bool.and_eq_true] at h
    simp [List.dropWhile_cons, h.1, ih h.2]

theorem searchFenced_none (l : List Char) (h : noJsonFenceAnywhere l = true) :
    searchFenced l = none := by
  induction l with
  | nil => rfl
  | cons c rest ih =>
    unfold noJsonFenceAnywhere at h
    rw [Bool.and_eq_true] at h
    have hpre : ("```json".data.isPrefixOf (c :: rest)) = false := by
      cases hp : ("```json".data.isPrefixOf (c :: rest)) with
      | false => rfl
      | true => rw [hp] at h; simp at h
    unfold searchFenced
    unfold matchFencedAt
    rw [hpre]
    simp only [Bool.false_eq_true, if_false]
    exact ih h.2

end FencedRegexLemmas

/-- C10: a respondent reply that wraps its JSON answer array in a fenced
`json` code block — the very format the respondent prompt's examples use —
is rejected by the collection loop: the fenced-block pattern only matches
a braced object, the unfenced branch demands the raw text to start with
`[`, so extraction raises and the respondent's answers are replaced by a
single `JSON_ERROR` record. -/
theorem c10_fenced_array_rejected (survey : Survey.SurveyQuestions)
    (loads : String → Except String Json) (respondents : List Survey.Respondent)
    (i : Nat) (r : Survey.Respondent) (raw : String) (w body : List Char)
    (hdata : (pyStrip raw).data = "```json".data ++ (w ++ '[' :: body))
    (hws : w.all pyIsSpace = true)
    (hfence : Survey.noJsonFenceAnywhere ((pyStrip raw).data.drop 1) = true) :
    Survey.extractResponseJson (pyStrip raw) =
      Except.error Survey.ExtractError.notArrayNoBlock ∧
    Survey.processSuccess survey loads raw =
      Except.ok [Survey.jsonErrorRecord
        "Response is not a JSON array and no JSON code block found."] ∧
    Survey.processResult survey loads respondents i r (Except.ok raw) =
      Except.ok ⟨Survey.originalRespondent respondents r (Survey.taskName i r),
        [Survey.jsonErrorRecord
          "Response is not a JSON array and no JSON code block found."]⟩ := by
  have hmatch0 : Survey.matchFencedAt ((pyStrip raw).data) = none := by
    rw [hdata]
    unfold Survey.matchFencedAt
    rw [isPrefixOf_append_self]
    have hdrop : (("```json".data ++ (w ++ '[' :: body)).drop 7) = w ++ '[' :: body := by
      rw [show (7 : Nat) = ("```json".data).length from rfl, List.drop_left]
    rw [hdrop, dropWhile_append_all w ('[' :: body) hws]
    simp [List.dropWhile_cons, pyIsSpace]
  have hdata' : (pyStrip raw).data =
      '`' :: ('`' :: '`' :: 'j' :: 's' :: 'o' :: 'n' :: (w ++ '[' :: body)) := by
    rw [hdata]; rfl
  have hfence' : Survey.noJsonFenceAnywhere
      ('`' :: '`' :: 'j' :: 's' :: 'o' :: 'n' :: (w ++ '[' :: body)) = true := by
    rw [hdata'] at hfence
    simpa using hfence
  have hsearch : Survey.searchFenced ((pyStrip raw).data) = none := by
    rw [hdata']
    show (match Survey.matchFencedAt
        ('`' :: ('`' :: '`' :: 'j' :: 's' :: 'o' :: 'n' :: (w ++ '[' :: body))) with
      | some grp => some grp
      | none => Survey.searchFenced ('`' :: '`' :: 'j' :: 's' :: 'o' :: 'n' :: (w ++ '[' :: body))) = none
    rw [hdata'] at hmatch0
    rw [hmatch0]
    exact searchFenced_none _ hfence'
  have hstart : Survey.strStartsWithChar (pyStrip raw) '[' = false := by
    unfold Survey.strStartsWithChar
    rw [hdata']
    rfl
  have hextract : Survey.extractResponseJson (pyStrip raw) =
      Except.error Survey.ExtractError.notArrayNoBlock := by
    unfold Survey.extractResponseJson
    rw [hsearch, hstart]
    rfl
  have hsucc : Survey.processSuccess survey loads raw =
      Except.ok [Survey.jsonErrorRecord
        "Response is not a JSON array and no JSON code block found."] := by
    unfold Survey.processSuccess
    rw [hextract]
    rfl
  refine ⟨hextract, hsucc, ?_⟩
  show (match Survey.processSuccess survey loads raw with
    | .error e => Except.error e
    | .ok answers =>
      Except.ok (⟨Survey.originalRespondent respondents r (Survey.taskName i r),
        answers⟩ : Survey.ResponseSet)) = _
  rw [hsucc]

/-- Witness for C10 at the concrete reply that fences an empty JSON array:
it is reduced to a single `JSON_ERROR` record. -/
theorem c10_fenced_array_rejected_witness :
    ((pyStrip "```json\n[]\n```").data =
      "```json".data ++ (['\n'] ++ '[' :: (']' :: '\n' :: '`' :: '`' :: '`' :: []))) ∧
    (['\n'].all pyIsSpace = true) ∧
    (Survey.noJsonFenceAnywhere ((pyStrip "```json\n[]\n```").data.drop 1) = true) ∧
    (Survey.processResult Survey.sampleSurvey Survey.sampleLoads Survey.sampleRespondents 0
        Survey.dummyRespondent (Except.ok "```json\n[]\n```") =
      Except.ok ⟨Survey.originalRespondent Survey.sampleRespondents Survey.dummyRespondent
          (Survey.taskName 0 Survey.dummyRespondent),
        [Survey.jsonErrorRecord
          "Response is not a JSON array and no JSON code block found."]⟩) :=
  ⟨by decide, by decide, by decide,
   (c10_fenced_array_rejected Survey.sampleSurvey Survey.sampleLoads Survey.sampleRespondents 0
     Survey.dummyRespondent "```json\n[]\n```" ['\n'] (']' :: '\n' :: '`' :: '`' :: '`' :: [])
     (by decide) (by decide) (by decide)).2.2⟩

section SequentialInteractionLemmas

theorem getD_append_lt {α : Type} (l : List α) (x d : α) :
    ∀ k, k < l.length → (l ++ [x]).getD k d = l.getD k d := by
  induction l with
  | nil => intro k hk; simp at hk
  | cons a rest ih =>
    intro k hk
    cases k with
    | zero => rfl
    | succ k' =>
      simp only [List.cons_append, List.getD_cons_succ]
      exact ih k' (by simpa using hk)

theorem getD_append_len {α : Type} (l : List α) (x d : α) :
    (l ++ [x]).getD l.length d = x := by
  induction l with
  | nil => rfl
  | cons a rest ih =>
    simpa only [List.cons_append, List.length_cons, List.getD_cons_succ] using ih

theorem getD_mem {α : Type} (l : List α) (d : α) :
    ∀ k, k < l.length → l.getD k d ∈ l := by
  induction l with
  | nil => intro k hk; simp at hk
  | cons a rest ih =>
    intro k hk
    cases k with
    | zero => simp
    | succ k' =>
      simp only [List.getD_cons_succ]
      exact List.mem_cons_of_mem a (ih k' (by simpa using hk))

theorem isInfix_append_ext {α : Type} {l a : List α} (b : List α) (h : l <:+: a) :
    l <:+: a ++ b := by
  obtain ⟨s, t, hst⟩ := h
  exact ⟨s, t ++ b, by rw [← hst]; simp⟩

theorem context_infix_prompt (c tail : String) :
    c.data <:+: (FocusGroup.promptHeader c ++ tail).data := by
  refine ⟨"Current context:\n".data, "\n\n".data ++ tail.data, ?_⟩
  simp [FocusGroup.promptHeader, String.data_append, List.append_assoc]

theorem pushTurn_inv (st : FocusGroup.SimState) (label : String)
    (e : FocusGroup.DialogueEntry) (prompt : String) (hJ : FGInv st)
    (hp : st.context.data <:+: prompt.data) :
    FGInv (FocusGroup.pushTurn st label e prompt) := by
  obtain ⟨hpair, hctx, hcausal⟩ := hJ
  have hctxdata : (st.context ++ "\n" ++ label ++ ": " ++ e.content).data =
      st.context.data ++ ("\n".data ++ (label.data ++ (": ".data ++ e.content.data))) := by
    simp [String.data_append, List.append_assoc]
  refine ⟨?_, ?_, ?_⟩
  · show st.transcript ++ [e] = (st.log ++ [(prompt, e)]).map Prod.snd
    simp [hpair]
  · intro pe hpe
    show pe.2.content.data <:+: (st.context ++ "\n" ++ label ++ ": " ++ e.content).data
    rw [hctxdata]
    have hpe' : pe ∈ st.log ++ [(prompt, e)] := hpe
    rw [List.mem_append] at hpe'
    rcases hpe' with hmem | hmem
    · exact isInfix_append_ext _ (hctx pe hmem)
    · simp only [List.mem_singleton] at hmem
      subst hmem
      exact ⟨st.context.data ++ ("\n".data ++ (label.data ++ ": ".data)), [],
        by simp [List.append_assoc]⟩
  · intro i j hij hj
    have hj' : j < st.log.length + 1 := by
      simpa [FocusGroup.pushTurn] using hj
    show ((st.log ++ [(prompt, e)]).getD i FocusGroup.dummyLogEntry).2.content.data <:+:
      ((st.log ++ [(prompt, e)]).getD j FocusGroup.dummyLogEntry).1.data
    by_cases hjlen : j < st.log.length
    · rw [getD_append_lt _ _ _ j hjlen, getD_append_lt _ _ _ i (lt_trans hij hjlen)]
      exact hcausal i j hij hjlen
    · have hje : j = st.log.length := by omega
      subst hje
      rw [getD_append_len, getD_append_lt _ _ _ i hij]
      exact List.IsInfix.trans
        (hctx _ (getD_mem st.log FocusGroup.dummyLogEntry i hij)) hp

theorem moderatorTurn_inv (gen : Nat → String → Except String String)
    (topic names : String) (r n : Nat) (st : FocusGroup.SimState) (hJ : FGInv st) :
    FGInv (FocusGroup.moderatorTurn gen topic names r n st) :=
  pushTurn_inv st "Moderator" _ _ hJ
    (context_infix_prompt st.context (FocusGroup.moderatorInstr r n topic names))

theorem participantTurn_inv (gen : Nat → String → Except String String)
    (p : FocusGroup.Participant) (st : FocusGroup.SimState) (hJ : FGInv st) :
    FGInv (FocusGroup.participantTurn gen p st) :=
  pushTurn_inv st _ _ _ hJ
    (context_infix_prompt st.context (FocusGroup.participantInstr p.reminder))

theorem conclusionTurn_inv (gen : Nat → String → Except String String)
    (topic : String) (st : FocusGroup.SimState) (hJ : FGInv st) :
    FGInv (FocusGroup.conclusionTurn gen topic st) :=
  pushTurn_inv st "Moderator" _ _ hJ (context_infix_prompt st.context _)

theorem foldl_participantTurn_inv (gen : Nat → String → Except String String) :
    ∀ (ps : List FocusGroup.Participant) (st : FocusGroup.SimState), FGInv st →
      FGInv (ps.foldl (fun s p => FocusGroup.participantTurn gen p s) st) := by
  intro ps
  induction ps with
  | nil => intro st h; exact h
  | cons p rest ih =>
    intro st h
    exact ih _ (participantTurn_inv gen p st h)

theorem runRound_inv (gen : Nat → String → Except String String)
    (topic names : String) (n : Nat) (ps : List FocusGroup.Participant) (r : Nat)
    (st : FocusGroup.SimState) (hJ : FGInv st) :
    FGInv (FocusGroup.runRound gen topic names n ps r st) :=
  foldl_participantTurn_inv gen ps _ (moderatorTurn_inv gen topic names r n st hJ)

theorem runRounds_inv (gen : Nat → String → Except String String)
    (topic names : String) (n : Nat) (ps : List FocusGroup.Participant) :
    ∀ (k : Nat) (st : FocusGroup.SimState), FGInv st →
      FGInv (FocusGroup.runRounds gen topic names n ps k st) := by
  intro k
  induction k with
  | zero => intro st h; exact h
  | succ k' ih =>
    intro st h
    exact ih _ (runRound_inv gen topic names n ps (n - k') st h)

theorem runSimulation_inv (gen : Nat → String → Except String String)
    (topic : String) (ps : List FocusGroup.Participant) (numRounds : Nat) :
    FGInv (FocusGroup.runSimulation gen topic ps numRounds) := by
  apply conclusionTurn_inv
  apply runRounds_inv
  refine ⟨rfl, ?_, ?_⟩
  · intro pe hpe
    simp at hpe
  · intro i j _ hj
    simp at hj

theorem idiPush_inv (st : IDI.InterviewState) (sp dialogue prompt : String)
    (hJ : IDIInv st) (hp : st.context.data <:+: prompt.data) :
    IDIInv (IDI.idiPush st sp dialogue prompt) := by
  obtain ⟨hpair, hctx, hcausal⟩ := hJ
  refine ⟨?_, ?_, ?_⟩
  · show st.transcript ++ [(sp, dialogue)] =
      (st.log ++ [(prompt, (sp, dialogue))]).map Prod.snd
    simp [hpair]
  · intro pe hpe
    show pe.2.2.data <:+: (st.context ++ "\n" ++ sp ++ ": " ++ dialogue).data
    have hctxdata : (st.context ++ "\n" ++ sp ++ ": " ++ dialogue).data =
        st.context.data ++ ("\n".data ++ (sp.data ++ (": ".data ++ dialogue.data))) := by
      simp [String.data_append, List.append_assoc]
    rw [hctxdata]
    have hpe' : pe ∈ st.log ++ [(prompt, (sp, dialogue))] := hpe
    rw [List.mem_append] at hpe'
    rcases hpe' with hmem | hmem
    · exact isInfix_append_ext _ (hctx pe hmem)
    · simp only [List.mem_singleton] at hmem
      subst hmem
      exact ⟨st.context.data ++ ("\n".data ++ (sp.data ++ ": ".data)), [],
        by simp [List.append_assoc]⟩
  · intro i j hij hj
    have hj' : j < st.log.length + 1 := by
      simpa [IDI.idiPush] using hj
    show ((st.log ++ [(prompt, (sp, dialogue))]).getD i IDI.dummyIdiLogEntry).2.2.data <:+:
      ((st.log ++ [(prompt, (sp, dialogue))]).getD j IDI.dummyIdiLogEntry).1.data
    by_cases hjlen : j < st.log.length
    · rw [getD_append_lt _ _ _ j hjlen, getD_append_lt _ _ _ i (lt_trans hij hjlen)]
      exact hcausal i j hij hjlen
    · have hje : j = st.log.length := by omega
      subst hje
      rw [getD_append_len, getD_append_lt _ _ _ i hij]
      exact List.IsInfix.trans
        (hctx _ (getD_mem st.log IDI.dummyIdiLogEntry i hij)) hp

theorem idiTurn_inv (gen : Nat → String → String) (sp tail : String)
    (st : IDI.InterviewState) (hJ : IDIInv st) :
    IDIInv (IDI.idiTurn gen sp tail st) :=
  idiPush_inv st sp _ _ hJ (context_infix_prompt st.context tail)

theorem idiFinalPush_pc (st : IDI.InterviewState) (sp dialogue prompt : String)
    (hJ : IDIInv st) (hp : st.context.data <:+: prompt.data) :
    (IDI.idiFinalPush st sp dialogue prompt).transcript =
      (IDI.idiFinalPush st sp dialogue prompt).log.map Prod.snd ∧
    (∀ i j, i < j → j < (IDI.idiFinalPush st sp dialogue prompt).log.length →
      (((IDI.idiFinalPush st sp dialogue prompt).log.getD i IDI.dummyIdiLogEntry).2.2.data) <:+:
        (((IDI.idiFinalPush st sp dialogue prompt).log.getD j IDI.dummyIdiLogEntry).1.data)) := by
  obtain ⟨hpair, hctx, hcausal⟩ := hJ
  refine ⟨?_, ?_⟩
  · show st.transcript ++ [(sp, dialogue)] =
      (st.log ++ [(prompt, (sp, dialogue))]).map Prod.snd
    simp [hpair]
  · intro i j hij hj
    have hj' : j < st.log.length + 1 := by
      simpa [IDI.idiFinalPush] using hj
    show ((st.log ++ [(prompt, (sp, dialogue))]).getD i IDI.dummyIdiLogEntry).2.2.data <:+:
      ((st.log ++ [(prompt, (sp, dialogue))]).getD j IDI.dummyIdiLogEntry).1.data
    by_cases hjlen : j < st.log.length
    · rw [getD_append_lt _ _ _ j hjlen, getD_append_lt _ _ _ i (lt_trans hij hjlen)]
      exact hcausal i j hij hjlen
    · have hje : j = st.log.length := by omega
      subst hje
      rw [getD_append_len, getD_append_lt _ _ _ i hij]
      exact List.IsInfix.trans
        (hctx _ (getD_mem st.log IDI.dummyIdiLogEntry i hij)) hp

theorem idiFinalTurn_pc (gen : Nat → String → String) (sp tail : String)
    (st : IDI.InterviewState) (hJ : IDIInv st) :
    (IDI.idiFinalTurn gen sp tail st).transcript =
      (IDI.idiFinalTurn gen sp tail st).log.map Prod.snd ∧
    (∀ i j, i < j → j < (IDI.idiFinalTurn gen sp tail st).log.length →
      (((IDI.idiFinalTurn gen sp tail st).log.getD i IDI.dummyIdiLogEntry).2.2.data) <:+:
        (((IDI.idiFinalTurn gen sp tail st).log.getD j IDI.dummyIdiLogEntry).1.data)) :=
  idiFinalPush_pc st sp _ _ hJ (context_infix_prompt st.context tail)

theorem interviewLoop_inv (gen : Nat → String → String) (iname rname topic : String) :
    ∀ (k : Nat) (st : IDI.InterviewState), IDIInv st →
      IDIInv (IDI.interviewLoop gen iname rname topic k st) := by
  intro k
  induction k with
  | zero => intro st h; exact h
  | succ k' ih =>
    intro st h
    exact ih _ (idiTurn_inv gen _ _ _ (idiTurn_inv gen _ _ _ h))

end SequentialInteractionLemmas

theorem runInterview_pc (gen : Nat → String → String)
    (iname rname topic rinfo : String) (numQuestions : Nat) :
    (IDI.runInterview gen iname rname topic rinfo numQuestions).transcript =
      (IDI.runInterview gen iname rname topic rinfo numQuestions).log.map Prod.snd ∧
    (∀ i j, i < j →
      j < (IDI.runInterview gen iname rname topic rinfo numQuestions).log.length →
      (((IDI.runInterview gen iname rname topic rinfo numQuestions).log.getD i
          IDI.dummyIdiLogEntry).2.2.data) <:+:
        (((IDI.runInterview gen iname rname topic rinfo numQuestions).log.getD j
          IDI.dummyIdiLogEntry).1.data)) := by
  unfold IDI.runInterview
  apply idiFinalTurn_pc
  apply idiTurn_inv
  apply interviewLoop_inv
  apply idiTurn_inv
  apply idiTurn_inv
  refine ⟨rfl, ?_, ?_⟩
  · intro pe hpe
    simp at hpe
  · intro i j _ hj
    simp at hj

/-- C8: in both sequential turn-taking interactions — the focus-group
moderator/participants loop and the interviewer/respondent loop — the
transcript is append-only in generation order (it lists exactly the logged
turns, in order), and the prompt sent for every turn contains, as a
literal substring, the text of every previously generated turn; in
particular every round-2 prompt contains round 1's moderator and
participant turn texts. -/
theorem c8_sequential_causal_containment
    (genFG : Nat → String → Except String String) (topic : String)
    (participants : List FocusGroup.Participant) (numRounds : Nat)
    (genIDI : Nat → String → String) (iname rname itopic rinfo : String)
    (numQuestions : Nat) :
    ((FocusGroup.runSimulation genFG topic participants numRounds).transcript =
      (FocusGroup.runSimulation genFG topic participants numRounds).log.map Prod.snd) ∧
    (∀ i j, i < j →
      j < (FocusGroup.runSimulation genFG topic participants numRounds).log.length →
      (((FocusGroup.runSimulation genFG topic participants numRounds).log.getD i
          FocusGroup.dummyLogEntry).2.content.data) <:+:
        (((FocusGroup.runSimulation genFG topic participants numRounds).log.getD j
          FocusGroup.dummyLogEntry).1.data)) ∧
    ((IDI.runInterview genIDI iname rname itopic rinfo numQuestions).transcript =
      (IDI.runInterview genIDI iname rname itopic rinfo numQuestions).log.map Prod.snd) ∧
    (∀ i j, i < j →
      j < (IDI.runInterview genIDI iname rname itopic rinfo numQuestions).log.length →
      (((IDI.runInterview genIDI iname rname itopic rinfo numQuestions).log.getD i
          IDI.dummyIdiLogEntry).2.2.data) <:+:
        (((IDI.runInterview genIDI iname rname itopic rinfo numQuestions).log.getD j
          IDI.dummyIdiLogEntry).1.data)) := by
  have hFG := runSimulation_inv genFG topic participants numRounds
  have hIDI := runInterview_pc genIDI iname rname itopic rinfo numQuestions
  exact ⟨hFG.1, hFG.2.2, hIDI.1, hIDI.2⟩

/-- Witness for C8 at a concrete 2-round, 1-participant focus group and a
concrete 2-question interview: the prompt of turn 1 literally contains the
text of turn 0. -/
theorem c8_sequential_causal_containment_witness :
    ((0 : Nat) < 1) ∧
    (1 < (FocusGroup.runSimulation FocusGroup.sampleGen "tea"
      [FocusGroup.sampleParticipant] 2).log.length) ∧
    (((FocusGroup.runSimulation FocusGroup.sampleGen "tea"
        [FocusGroup.sampleParticipant] 2).log.getD 0
          FocusGroup.dummyLogEntry).2.content.data <:+:
      (((FocusGroup.runSimulation FocusGroup.sampleGen "tea"
        [FocusGroup.sampleParticipant] 2).log.getD 1 FocusGroup.dummyLogEntry).1.data)) ∧
    (1 < (IDI.runInterview IDI.sampleIdiGen "Ivy" "Rex" "tea" "30 y/o Chef" 2).log.length) ∧
    (((IDI.runInterview IDI.sampleIdiGen "Ivy" "Rex" "tea" "30 y/o Chef" 2).log.getD 0
        IDI.dummyIdiLogEntry).2.2.data <:+:
      (((IDI.runInterview IDI.sampleIdiGen "Ivy" "Rex" "tea" "30 y/o Chef" 2).log.getD 1
        IDI.dummyIdiLogEntry).1.data)) :=
  ⟨by decide, by decide,
   (c8_sequential_causal_containment FocusGroup.sampleGen "tea"
     [FocusGroup.sampleParticipant] 2 IDI.sampleIdiGen "Ivy" "Rex" "tea" "30 y/o Chef"
     2).2.1 0 1 (by decide) (by decide),
   by decide,
   (c8_sequential_causal_containment FocusGroup.sampleGen "tea"
     [FocusGroup.sampleParticipant] 2 IDI.sampleIdiGen "Ivy" "Rex" "tea" "30 y/o Chef"
     2).2.2.2 0 1 (by decide) (by decide)⟩

/-- C2: the survey pipeline executes its stages strictly in the order
design → generate-respondents → collect-responses → process → analyze →
report (visualizations then final report), each stage persisting its
artifact before the next stage starts; if a stage raises, the run is
recorded failed with that error, no later stage is invoked, and every
artifact persisted by the earlier stages remains in the result.  The
conjuncts characterize the run for the first failing stage (if any) and
for the all-success case. -/
theorem c2_pipeline_stages {A E : Type} (o : Survey.StageOracles A E) :
    ((Survey.runSurveySimulation o).invoked <+: Survey.stageOrder) ∧
    (∀ e, o.designSurvey = Except.error e →
      Survey.runSurveySimulation o = ⟨[], ["design_survey"], Survey.RunStatus.failed e⟩) ∧
    (∀ s e, o.designSurvey = Except.ok s → o.generateRespondents = Except.error e →
      Survey.runSurveySimulation o =
        ⟨[("survey_questions", s)], ["design_survey", "generate_respondents"],
         Survey.RunStatus.failed e⟩) ∧
    (∀ s r e, o.designSurvey = Except.ok s → o.generateRespondents = Except.ok r →
      o.collectResponses s r = Except.error e →
      Survey.runSurveySimulation o =
        ⟨[("survey_questions", s), ("respondents", r)],
         ["design_survey", "generate_respondents", "collect_survey_responses"],
         Survey.RunStatus.failed e⟩) ∧
    (∀ s r c e, o.designSurvey = Except.ok s → o.generateRespondents = Except.ok r →
      o.collectResponses s r = Except.ok c → o.processData s c = Except.error e →
      Survey.runSurveySimulation o =
        ⟨[("survey_questions", s), ("respondents", r), ("survey_responses_raw", c)],
         ["design_survey", "generate_respondents", "collect_survey_responses",
          "process_survey_data"], Survey.RunStatus.failed e⟩) ∧
    (∀ s r c p e, o.designSurvey = Except.ok s → o.generateRespondents = Except.ok r →
      o.collectResponses s r = Except.ok c → o.processData s c = Except.ok p →
      o.analyzeData s p = Except.error e →
      Survey.runSurveySimulation o =
        ⟨[("survey_questions", s), ("respondents", r), ("survey_responses_raw", c),
          ("survey_data_processed", p)],
         ["design_survey", "generate_respondents", "collect_survey_responses",
          "process_survey_data", "analyze_survey_data"], Survey.RunStatus.failed e⟩) ∧
    (∀ s r c p a e, o.designSurvey = Except.ok s → o.generateRespondents = Except.ok r →
      o.collectResponses s r = Except.ok c → o.processData s c = Except.ok p →
      o.analyzeData s p = Except.ok a → o.generateVisualizations s p a = Except.error e →
      Survey.runSurveySimulation o =
        ⟨[("survey_questions", s), ("respondents", r), ("survey_responses_raw", c),
          ("survey_data_processed", p), ("survey_analysis", a)],
         ["design_survey", "generate_respondents", "collect_survey_responses",
          "process_survey_data", "analyze_survey_data", "generate_visualizations"],
         Survey.RunStatus.failed e⟩) ∧
    (∀ s r c p a v e, o.designSurvey = Except.ok s → o.generateRespondents = Except.ok r →
      o.collectResponses s r = Except.ok c → o.processData s c = Except.ok p →
      o.analyzeData s p = Except.ok a → o.generateVisualizations s p a = Except.ok v →
      o.generateFinalReport a v = Except.error e →
      Survey.runSurveySimulation o =
        ⟨[("survey_questions", s), ("respondents", r), ("survey_responses_raw", c),
          ("survey_data_processed", p), ("survey_analysis", a), ("visualizations", v)],
         Survey.stageOrder, Survey.RunStatus.failed e⟩) ∧
    (∀ s r c p a v rep, o.designSurvey = Except.ok s → o.generateRespondents = Except.ok r →
      o.collectResponses s r = Except.ok c → o.processData s c = Except.ok p →
      o.analyzeData s p = Except.ok a → o.generateVisualizations s p a = Except.ok v →
      o.generateFinalReport a v = Except.ok rep →
      Survey.runSurveySimulation o =
        ⟨[("survey_questions", s), ("respondents", r), ("survey_responses_raw", c),
          ("survey_data_processed", p), ("survey_analysis", a), ("visualizations", v),
          ("report", rep)],
         Survey.stageOrder, Survey.RunStatus.completed⟩) := by
  refine ⟨?_, ?_, ?_, ?_, ?_, ?_, ?_, ?_, ?_⟩
  · cases hd : o.designSurvey with
    | error e => simp [Survey.runSurveySimulation, hd, Survey.stageOrder]
    | ok s =>
      cases hg : o.generateRespondents with
      | error e => simp [Survey.runSurveySimulation, hd, hg, Survey.stageOrder]
      | ok r =>
        cases hc : o.collectResponses s r with
        | error e => simp [Survey.runSurveySimulation, hd, hg, hc, Survey.stageOrder]
        | ok c =>
          cases hp : o.processData s c with
          | error e => simp [Survey.runSurveySimulation, hd, hg, hc, hp, Survey.stageOrder]
          | ok p =>
            cases ha : o.analyzeData s p with
            | error e =>
              simp [Survey.runSurveySimulation, hd, hg, hc, hp, ha, Survey.stageOrder]
            | ok a =>
              cases hv : o.generateVisualizations s p a with
              | error e =>
                simp [Survey.runSurveySimulation, hd, hg, hc, hp, ha, hv, Survey.stageOrder]
              | ok v =>
                cases hr : o.generateFinalReport a v with
                | error e =>
                  simp [Survey.runSurveySimulation, hd, hg, hc, hp, ha, hv, hr,
                    Survey.stageOrder]
                | ok rep =>
                  simp [Survey.runSurveySimulation, hd, hg, hc, hp, ha, hv, hr,
                    Survey.stageOrder]
  · intro e h1
    simp [Survey.runSurveySimulation, h1]
  · intro s e h1 h2
    simp [Survey.runSurveySimulation, h1, h2]
  · intro s r e h1 h2 h3
    simp [Survey.runSurveySimulation, h1, h2, h3]
  · intro s r c e h1 h2 h3 h4
    simp [Survey.runSurveySimulation, h1, h2, h3, h4]
  · intro s r c p e h1 h2 h3 h4 h5
    simp [Survey.runSurveySimulation, h1, h2, h3, h4, h5]
  · intro s r c p a e h1 h2 h3 h4 h5 h6
    simp [Survey.runSurveySimulation, h1, h2, h3, h4, h5, h6]
  · intro s r c p a v e h1 h2 h3 h4 h5 h6 h7
    simp [Survey.runSurveySimulation, h1, h2, h3, h4, h5, h6, h7, Survey.stageOrder]
  · intro s r c p a v rep h1 h2 h3 h4 h5 h6 h7
    simp [Survey.runSurveySimulation, h1, h2, h3, h4, h5, h6, h7, Survey.stageOrder]

/-- Witness for C2: with all-succeeding stage oracles the run completes
with all seven artifacts persisted in order; with a collection-stage
failure the run stops after three invocations, keeps the two artifacts
already persisted and records the error. -/
theorem c2_pipeline_stages_witness :
    (Survey.sampleOracles.designSurvey = Except.ok 1) ∧
    (Survey.runSurveySimulation Survey.sampleOracles =
      ⟨[("survey_questions", 1), ("respondents", 2), ("survey_responses_raw", 3),
        ("survey_data_processed", 4), ("survey_analysis", 5), ("visualizations", 6),
        ("report", 7)], Survey.stageOrder, Survey.RunStatus.completed⟩) ∧
    (Survey.sampleFailingOracles.collectResponses 1 2 = Except.error "backend down") ∧
    (Survey.runSurveySimulation Survey.sampleFailingOracles =
      ⟨[("survey_questions", 1), ("respondents", 2)],
       ["design_survey", "generate_respondents", "collect_survey_responses"],
       Survey.RunStatus.failed "backend down"⟩) :=
  ⟨rfl,
   (c2_pipeline_stages Survey.sampleOracles).2.2.2.2.2.2.2.2 1 2 3 4 5 6 7
     rfl rfl rfl rfl rfl rfl rfl,
   rfl,
   (c2_pipeline_stages Survey.sampleFailingOracles).2.2.2.1 1 2 "backend down"
     rfl rfl rfl⟩
